import Mathlib

/-!
# UEVR foveated OpenXR runtime: verification development

Shallow embedding of `src/mods/vr/runtimes/OpenXR_Foveated.{hpp,cpp}`.

* `float` is IEEE-754 binary32, carried as its bit pattern (`F32`); every arithmetic
  operation rounds to nearest, ties to even, as the SSE scalar instructions of the x64
  target do.
* `uint32_t` values are `Nat`s below `2 ^ 32`.  A `float → uint32_t` cast whose truncated
  value is out of range has no defined result in the language; the value the target yields
  is an argument (`oob`) of every operation that casts.
* The OpenXR loader is an explicit argument (`XrRuntime`): each entry point maps the
  arguments of a call to the result code, the count written back and the elements the
  runtime writes to the caller's buffer.
* The base class lives outside the two translated files; its overridden operations are
  arguments (`BasePipeline`) and the members this module reads or writes are the fields
  of `OpenXRBase`.
* The settings store `utility::Config` is not part of the translated files either; it is
  modelled from the specification as a key-value map (`Config`), and the loop over the base
  pipeline's options in the two configuration hooks is an argument (`ModOptions`).
-/

namespace runtimes

/-! ## IEEE-754 binary32 -/

/-- A C++ `float`: the 32-bit IEEE-754 pattern (sign, 8 exponent bits, 23 fraction bits). -/
structure F32 where
  bits : Nat
deriving DecidableEq, Repr

namespace F32

/-- Sign bit of the pattern. -/
def sign (x : F32) : Bool := x.bits / 2147483648 % 2 = 1

/-- Biased exponent field. -/
def expField (x : F32) : Nat := x.bits / 8388608 % 256

/-- Fraction field. -/
def fracField (x : F32) : Nat := x.bits % 8388608

/-- The pattern is a NaN. -/
def isNaN (x : F32) : Bool := x.expField = 255 ∧ x.fracField ≠ 0

/-- The pattern is an infinity. -/
def isInf (x : F32) : Bool := x.expField = 255 ∧ x.fracField = 0

/-- Integer significand of a finite pattern: the value is `± significand * 2 ^ exponent`. -/
def significand (x : F32) : Nat :=
  if x.expField = 0 then x.fracField else 8388608 + x.fracField

/-- Exponent of the unit in the last place of a finite pattern. -/
def exponent (x : F32) : Int :=
  if x.expField = 0 then -149 else (x.expField : Int) - 150

/-- Exact value of a finite pattern (`0` for NaN and infinities, which callers exclude). -/
def toRat (x : F32) : ℚ :=
  if x.expField = 255 then 0
  else (if x.sign then -1 else 1) * (x.significand : ℚ) * (2 : ℚ) ^ x.exponent

/-- Sign bit placed at bit 31. -/
def signBits (neg : Bool) : Nat := if neg then 2147483648 else 0

/-- Infinity of the given sign. -/
def inf (neg : Bool) : F32 := ⟨signBits neg + 2139095040⟩

/-- The canonical quiet NaN. -/
def nan : F32 := ⟨2143289344⟩

/-- Position of the leading one bit of `m` (`0` for `m < 2`); `fuel ≥ m` always suffices. -/
def ilog2Aux : Nat → Nat → Nat
  | 0, _ => 0
  | fuel + 1, m => if m < 2 then 0 else ilog2Aux fuel (m / 2) + 1

/-- Floor of the binary logarithm. -/
def ilog2 (m : Nat) : Nat := ilog2Aux m m

/-- Magnitude bits (exponent and fraction fields) of the binary32 nearest to `m * 2 ^ e`,
ties to even; a result of `2139095040` or more stands for overflow. -/
def roundMag (m : Nat) (e : Int) : Nat :=
  if m = 0 then 0
  else
    let q : Int := max ((ilog2 m : Int) + e - 23) (-149)
    let m1 : Nat :=
      if q ≤ e then m * 2 ^ (e - q).toNat
      else
        let sh := (q - e).toNat
        let t := m / 2 ^ sh
        let r := m % 2 ^ sh
        let half := 2 ^ (sh - 1)
        if half < r ∨ (r = half ∧ t % 2 = 1) then t + 1 else t
    (q + 149).toNat * 8388608 + m1

/-- Round the exact value `± m * 2 ^ e` to binary32, to nearest with ties to even. -/
def round (neg : Bool) (m : Nat) (e : Int) : F32 :=
  if 2139095040 ≤ roundMag m e then inf neg else ⟨signBits neg + roundMag m e⟩

/-- Conversion `uint32_t → float` (the usual arithmetic conversion of `u * f`). -/
def ofUInt32 (n : Nat) : F32 := round false n 0

/-- Single-precision multiplication. -/
def mul (a b : F32) : F32 :=
  if a.isNaN ∨ b.isNaN then nan
  else
    let neg := xor a.sign b.sign
    if a.isInf then (if b.significand = 0 then nan else inf neg)
    else if b.isInf then (if a.significand = 0 then nan else inf neg)
    else round neg (a.significand * b.significand) (a.exponent + b.exponent)

/-- Magnitude of a finite pattern truncated toward zero. -/
def truncMag (x : F32) : Nat :=
  if 0 ≤ x.exponent then x.significand * 2 ^ x.exponent.toNat
  else x.significand / 2 ^ (-x.exponent).toNat

/-- The truncated value of `x` is representable in `uint32_t`. -/
def inUInt32Range (x : F32) : Bool :=
  x.expField ≠ 255 ∧ (if x.sign then x.truncMag = 0 else x.truncMag < 4294967296)

/-- Conversion `static_cast<uint32_t>(float)`: the fractional part is discarded.  When the
truncated value is not representable the language leaves the result undefined; the value the
target produces there is the argument `oob`. -/
def toUInt32 (oob : F32 → Nat) (x : F32) : Nat :=
  if x.inUInt32Range then (if x.sign then 0 else x.truncMag) else oob x % 4294967296

end F32

/-! ## OpenXR and runtime-base types used by the module -/

/-- OpenXR result code; negative values are failures. -/
abbrev XrResult := Int

/-- The loader's failure test `XR_FAILED`. -/
def XR_FAILED (result : XrResult) : Bool := result < 0

/-- The success code. -/
def XR_SUCCESS : XrResult := 0

/-- System identifier (64-bit atom). -/
abbrev XrSystemId := Nat

/-- The null system identifier. -/
def XR_NULL_SYSTEM_ID : XrSystemId := 0

/-- View-configuration type enumerant. -/
abbrev XrViewConfigurationType := Nat

/-- Plain stereo, the base pipeline's view configuration. -/
def XR_VIEW_CONFIGURATION_TYPE_PRIMARY_STEREO : XrViewConfigurationType := 2

/-- Quad views: primary stereo with a foveated inset per eye. -/
def XR_VIEW_CONFIGURATION_TYPE_PRIMARY_STEREO_WITH_FOVEATED_INSET : XrViewConfigurationType :=
  1000037000

/-- Structure type tag enumerant. -/
abbrev XrStructureType := Nat

/-- Tag of `XrExtensionProperties`. -/
def XR_TYPE_EXTENSION_PROPERTIES : XrStructureType := 2

/-- Tag of `XrView`. -/
def XR_TYPE_VIEW : XrStructureType := 7

/-- Tag of `XrViewConfigurationView`. -/
def XR_TYPE_VIEW_CONFIGURATION_VIEW : XrStructureType := 41

/-- Unit quaternion of a pose. -/
structure XrQuaternionf where
  x : F32 := ⟨0⟩
  y : F32 := ⟨0⟩
  z : F32 := ⟨0⟩
  w : F32 := ⟨0⟩
deriving DecidableEq, Repr

/-- Position of a pose. -/
structure XrVector3f where
  x : F32 := ⟨0⟩
  y : F32 := ⟨0⟩
  z : F32 := ⟨0⟩
deriving DecidableEq, Repr

/-- Rigid pose. -/
structure XrPosef where
  orientation : XrQuaternionf := {}
  position : XrVector3f := {}
deriving DecidableEq, Repr

/-- Field of view, four half angles. -/
structure XrFovf where
  angleLeft : F32 := ⟨0⟩
  angleRight : F32 := ⟨0⟩
  angleUp : F32 := ⟨0⟩
  angleDown : F32 := ⟨0⟩
deriving DecidableEq, Repr

/-- Per-view pose descriptor; the defaults are the value-initialised (all zero) struct. -/
structure XrView where
  type : XrStructureType := 0
  next : Nat := 0
  pose : XrPosef := {}
  fov : XrFovf := {}
deriving DecidableEq, Repr

/-- Per-view configuration descriptor; the defaults are the value-initialised struct. -/
structure XrViewConfigurationView where
  type : XrStructureType := 0
  next : Nat := 0
  recommendedImageRectWidth : Nat := 0
  maxImageRectWidth : Nat := 0
  recommendedImageRectHeight : Nat := 0
  maxImageRectHeight : Nat := 0
  recommendedSwapchainSampleCount : Nat := 0
  maxSwapchainSampleCount : Nat := 0
deriving DecidableEq, Repr

/-- Swapchain record of the base pipeline. -/
structure Swapchain where
  handle : Nat := 0
  width : Int := 0
  height : Int := 0
deriving DecidableEq, Repr

/-- Result of a frame-update operation (`VRRuntime::Error`). -/
inductive Error where
  | SUCCESS
  | FAILURE (code : Int)
deriving DecidableEq, Repr

/-- Foveated rendering configuration structure, with the member initialisers of the header
(`1.0f`, `0.25f`, `0.5f`, `0.5f`). -/
structure FoveatedConfig where
  enabled : Bool := false
  center_resolution_scale : F32 := ⟨1065353216⟩
  peripheral_resolution_scale : F32 := ⟨1048576000⟩
  center_size_x : F32 := ⟨1056964608⟩
  center_size_y : F32 := ⟨1056964608⟩
  use_eye_tracking : Bool := false
deriving DecidableEq, Repr

/-- Foveated view data for quad-view rendering. -/
structure FoveatedViewData where
  high_res_views : List XrView := []
  low_res_views : List XrView := []
  high_res_configs : List XrViewConfigurationView := []
  low_res_configs : List XrViewConfigurationView := []
  high_res_width : Nat := 0
  high_res_height : Nat := 0
  low_res_width : Nat := 0
  low_res_height : Nat := 0
deriving DecidableEq, Repr

/-- Members inherited from the base pipeline that this module reads or writes.  `loaded` is
the value `VRRuntime::ready()` returns; `rest` stands for every other inherited member. -/
structure OpenXRBase where
  loaded : Bool := false
  session_ready : Bool := false
  instance_ : Nat := 0
  system : XrSystemId := XR_NULL_SYSTEM_ID
  view_config : XrViewConfigurationType := XR_VIEW_CONFIGURATION_TYPE_PRIMARY_STEREO
  view_configs : List XrViewConfigurationView := []
  views : List XrView := []
  stage_views : List XrView := []
  enabled_extensions : List String := []
  rest : Nat := 0
deriving DecidableEq, Repr

/-- The object: inherited members plus the protected members declared in the header, with
their member initialisers as defaults. -/
structure FoveatedOpenXR extends OpenXRBase where
  foveated_ready : Bool := false
  foveated_supported : Bool := false
  use_quad_views : Bool := false
  foveated_config : FoveatedConfig := {}
  foveated_views : FoveatedViewData := {}
  foveated_view_config : XrViewConfigurationType :=
    XR_VIEW_CONFIGURATION_TYPE_PRIMARY_STEREO_WITH_FOVEATED_INSET
  foveated_swapchains : List (Nat × Swapchain) := []
  eye_tracking_supported : Bool := false
  eye_tracking_active : Bool := false
  has_varjo_foveated : Bool := false
  has_fb_foveation : Bool := false
  has_meta_eye_tracked : Bool := false
deriving DecidableEq, Repr

/-- A freshly constructed object over the given inherited members and settings: every
member declared in the header holds its initialiser. -/
def FoveatedOpenXR.fresh (base : OpenXRBase) (cfg : FoveatedConfig) : FoveatedOpenXR :=
  { toOpenXRBase := base, foveated_config := cfg }

/-- Answers of the OpenXR loader.  Each entry point maps the arguments of one call to the
result code, the element count written back through the count pointer, and the elements the
runtime writes to the front of the caller's buffer (none when the capacity is `0`). -/
structure XrRuntime where
  xrEnumerateInstanceExtensionProperties : Nat → XrResult × Nat × List String
  xrEnumerateViewConfigurations :
    Nat → XrSystemId → Nat → XrResult × Nat × List XrViewConfigurationType
  xrEnumerateViewConfigurationViews :
    Nat → XrSystemId → XrViewConfigurationType → Nat →
      XrResult × Nat × List XrViewConfigurationView

/-- The overridden operations of the base pipeline.  They run on the whole object (they may
call virtual members) and can write inherited members only. -/
structure BasePipeline where
  update_matrices : FoveatedOpenXR → F32 → F32 → Error × OpenXRBase
  update_render_target_size : FoveatedOpenXR → Error × OpenXRBase
  destroy : FoveatedOpenXR → OpenXRBase

/-! ## Helpers for `std::vector` and output buffers -/

/-- The call `v.resize(n)`: keep the first `n` elements, append value-initialised ones. -/
def vector_resize {α : Type} (zero : α) (v : List α) (n : Nat) : List α :=
  v.take n ++ List.replicate (n - v.length) zero

/-- A runtime writing `out` to the front of a buffer whose size is fixed by the caller. -/
def write_buffer {α : Type} (buf out : List α) : List α :=
  (out ++ buf.drop out.length).take buf.length

/-- The runtime fills a configuration descriptor in place: `type` and `next` are inputs
owned by the caller, the six properties are outputs. -/
def fill_view_configuration_view (dst src : XrViewConfigurationView) :
    XrViewConfigurationView :=
  { src with type := dst.type, next := dst.next }

/-- Descriptors of `buf` after the runtime has written `out` to its front. -/
def write_view_configuration_views (buf out : List XrViewConfigurationView) :
    List XrViewConfigurationView :=
  (List.zipWith fill_view_configuration_view buf out) ++ buf.drop out.length

/-! ## The module's operations -/

/-- Method `FoveatedOpenXR::ready`. -/
def ready (self : FoveatedOpenXR) : Bool :=
  self.loaded && self.session_ready && self.foveated_ready

/-- Method `FoveatedOpenXR::check_foveated_support`. -/
def check_foveated_support (rt : XrRuntime) (self : FoveatedOpenXR) : Bool :=
  if self.system = XR_NULL_SYSTEM_ID then false
  else
    let r1 := rt.xrEnumerateViewConfigurations self.instance_ self.system 0
    let view_config_count := r1.2.1
    if XR_FAILED r1.1 then false
    else
      let r2 := rt.xrEnumerateViewConfigurations self.instance_ self.system view_config_count
      let view_configs := write_buffer (List.replicate view_config_count 0) r2.2.2
      if XR_FAILED r2.1 then false
      else view_configs.any
        (fun config => config == XR_VIEW_CONFIGURATION_TYPE_PRIMARY_STEREO_WITH_FOVEATED_INSET)

/-- Method `FoveatedOpenXR::calculate_foveated_viewports`. -/
def calculate_foveated_viewports (oob : F32 → Nat) (self : FoveatedOpenXR)
    (base_width base_height : Nat) : FoveatedOpenXR :=
  if self.use_quad_views = false then self
  else
    { self with
      foveated_views :=
        { self.foveated_views with
          high_res_width := F32.toUInt32 oob
            (F32.mul (F32.mul (F32.ofUInt32 base_width) self.foveated_config.center_size_x)
              self.foveated_config.center_resolution_scale)
          high_res_height := F32.toUInt32 oob
            (F32.mul (F32.mul (F32.ofUInt32 base_height) self.foveated_config.center_size_y)
              self.foveated_config.center_resolution_scale)
          low_res_width := F32.toUInt32 oob
            (F32.mul (F32.ofUInt32 base_width)
              self.foveated_config.peripheral_resolution_scale)
          low_res_height := F32.toUInt32 oob
            (F32.mul (F32.ofUInt32 base_height)
              self.foveated_config.peripheral_resolution_scale) } }

/-- Lines 191-206 of `setup_foveated_views`: resize the three per-view vectors to
`view_count` and set every type tag. -/
def resize_views (self : FoveatedOpenXR) (view_count : Nat) : FoveatedOpenXR :=
  { self with
    view_configs := (vector_resize {} self.view_configs view_count).map
      (fun config => { config with type := XR_TYPE_VIEW_CONFIGURATION_VIEW })
    views := (vector_resize {} self.views view_count).map
      (fun view => { view with type := XR_TYPE_VIEW })
    stage_views := (vector_resize {} self.stage_views view_count).map
      (fun view => { view with type := XR_TYPE_VIEW }) }

/-- Lines 216-227 of `setup_foveated_views`: the quad-view tail (sub-collections resized to
two elements each, then the viewport sizes from the first descriptor). -/
def setup_quad_view_data (oob : F32 → Nat) (self : FoveatedOpenXR) : FoveatedOpenXR :=
  let s : FoveatedOpenXR :=
    { self with
      foveated_views :=
        { self.foveated_views with
          high_res_views := vector_resize {} self.foveated_views.high_res_views 2
          low_res_views := vector_resize {} self.foveated_views.low_res_views 2
          high_res_configs := vector_resize {} self.foveated_views.high_res_configs 2
          low_res_configs := vector_resize {} self.foveated_views.low_res_configs 2 } }
  calculate_foveated_viewports oob s
    (s.view_configs.headD {}).recommendedImageRectWidth
    (s.view_configs.headD {}).recommendedImageRectHeight

/-- Method `FoveatedOpenXR::setup_foveated_views`. -/
def setup_foveated_views (oob : F32 → Nat) (rt : XrRuntime) (self : FoveatedOpenXR) :
    Bool × FoveatedOpenXR :=
  if self.system = XR_NULL_SYSTEM_ID then (false, self)
  else
    let r1 := rt.xrEnumerateViewConfigurationViews self.instance_ self.system
      self.view_config 0
    let view_count := r1.2.1
    if XR_FAILED r1.1 then (false, self)
    else if self.use_quad_views ∧ view_count ≠ 4 then
      (false, { self with use_quad_views := false })
    else
      let s1 := resize_views self view_count
      let r2 := rt.xrEnumerateViewConfigurationViews s1.instance_ s1.system
        s1.view_config view_count
      let s2 : FoveatedOpenXR :=
        { s1 with view_configs := write_view_configuration_views s1.view_configs r2.2.2 }
      if XR_FAILED r2.1 then (false, s2)
      else if s2.use_quad_views then (true, setup_quad_view_data oob s2)
      else (true, s2)

/-- Method `FoveatedOpenXR::initialize_foveated_rendering`. -/
def initialize_foveated_rendering (oob : F32 → Nat) (rt : XrRuntime)
    (self : FoveatedOpenXR) : Bool × FoveatedOpenXR :=
  if self.foveated_config.enabled = false then (false, self)
  else if check_foveated_support rt self = false then
    (false, { self with foveated_supported := false })
  else
    let s1 : FoveatedOpenXR := { self with foveated_supported := true }
    let s2 : FoveatedOpenXR :=
      if s1.use_quad_views then { s1 with view_config := s1.foveated_view_config } else s1
    let r := setup_foveated_views oob rt s2
    if r.1 = false then (false, r.2)
    else (true, { r.2 with foveated_ready := true })

/-- Method `FoveatedOpenXR::update_matrices`. -/
def update_matrices (base : BasePipeline) (self : FoveatedOpenXR) (nearz farz : F32) :
    Error × FoveatedOpenXR :=
  if self.foveated_ready = false ∨ self.use_quad_views = false then
    let r := base.update_matrices self nearz farz
    (r.1, { self with toOpenXRBase := r.2 })
  else if self.session_ready = false then (Error.SUCCESS, self)
  else (Error.SUCCESS, self)

/-- Method `FoveatedOpenXR::update_render_target_size`. -/
def update_render_target_size (oob : F32 → Nat) (base : BasePipeline)
    (self : FoveatedOpenXR) : Error × FoveatedOpenXR :=
  if self.foveated_ready = false ∨ self.use_quad_views = false then
    let r := base.update_render_target_size self
    (r.1, { self with toOpenXRBase := r.2 })
  else if self.session_ready = false ∨ self.view_configs.isEmpty then (Error.SUCCESS, self)
  else
    (Error.SUCCESS,
      calculate_foveated_viewports oob self
        (self.view_configs.headD {}).recommendedImageRectWidth
        (self.view_configs.headD {}).recommendedImageRectHeight)

/-- Lines 308-317 of `destroy`: the module's own resets. -/
def destroy_resets (self : FoveatedOpenXR) : FoveatedOpenXR :=
  { self with
    foveated_ready := false
    foveated_supported := false
    use_quad_views := false
    foveated_views :=
      { self.foveated_views with
        high_res_views := []
        low_res_views := []
        high_res_configs := []
        low_res_configs := [] }
    foveated_swapchains := [] }

/-- Method `FoveatedOpenXR::destroy`: the resets, then the base pipeline's teardown on the
object as the resets left it. -/
def destroy (base : BasePipeline) (self : FoveatedOpenXR) : FoveatedOpenXR :=
  let s := destroy_resets self
  { s with toOpenXRBase := base.destroy s }

/-- The call `enabled_extensions.insert(name)` on the `std::unordered_set`: a set keeps one
copy of each member. -/
def set_insert (s : List String) (name : String) : List String :=
  if name ∈ s then s else name :: s

/-- Body of the loop of `check_extensions` for one enumerated extension name. -/
def check_extension (self : FoveatedOpenXR) (ext_name : String) : FoveatedOpenXR :=
  let s1 : FoveatedOpenXR :=
    if ext_name = "XR_VARJO_foveated_rendering" then
      { self with
        has_varjo_foveated := true
        enabled_extensions := set_insert self.enabled_extensions "XR_VARJO_foveated_rendering" }
    else self
  let s2 : FoveatedOpenXR :=
    if ext_name = "XR_FB_foveation" then
      { s1 with
        has_fb_foveation := true
        enabled_extensions := set_insert s1.enabled_extensions "XR_FB_foveation" }
    else s1
  if ext_name = "XR_META_foveation_eye_tracked" then
    { s2 with
      has_meta_eye_tracked := true
      enabled_extensions := set_insert s2.enabled_extensions "XR_META_foveation_eye_tracked" }
  else s2

/-- Method `FoveatedOpenXR::check_extensions`.  The result codes of both enumeration calls
are ignored, as in the source; an unwritten buffer entry holds the empty name. -/
def check_extensions (rt : XrRuntime) (self : FoveatedOpenXR) : Bool × FoveatedOpenXR :=
  let extension_count := (rt.xrEnumerateInstanceExtensionProperties 0).2.1
  let s : FoveatedOpenXR :=
    if 0 < extension_count then
      let extensions := write_buffer (List.replicate extension_count "")
        (rt.xrEnumerateInstanceExtensionProperties extension_count).2.2
      extensions.foldl check_extension self
    else self
  (s.has_varjo_foveated || s.has_fb_foveation || s.has_meta_eye_tracked, s)

/-- Modelled from the spec: the settings store `utility::Config`, whose declaration is not
part of the translated files.  A key-value map from key names to scalar values. -/
inductive ConfigValue where
  | bool (b : Bool)
  | float (f : F32)
deriving DecidableEq, Repr

/-- Modelled from the spec: the settings store as a map from key names to values; an
absent key maps to `none`. -/
structure Config where
  entries : String → Option ConfigValue

/-- Modelled from the spec: the store with `key` bound to `value`, other keys as before. -/
def Config.set (cfg : Config) (key : String) (value : ConfigValue) : Config :=
  ⟨fun k => if k = key then some value else cfg.entries k⟩

/-- Modelled from the spec: `set_bool` of the settings store. -/
def Config.set_bool (cfg : Config) (key : String) (value : Bool) : Config :=
  cfg.set key (ConfigValue.bool value)

/-- Modelled from the spec: `set_float` of the settings store. -/
def Config.set_float (cfg : Config) (key : String) (value : F32) : Config :=
  cfg.set key (ConfigValue.float value)

/-- Modelled from the spec: `get_or_set_bool` of the settings store, with get-or-set
semantics: the existing Boolean under `key` is returned and the store left alone; when the
key holds no Boolean the default is returned, and written back when `set_defaults` holds. -/
def Config.get_or_set_bool (cfg : Config) (key : String) (default : Bool)
    (set_defaults : Bool) : Bool × Config :=
  match cfg.entries key with
  | some (ConfigValue.bool b) => (b, cfg)
  | _ => (default, if set_defaults then cfg.set_bool key default else cfg)

/-- Modelled from the spec: `get_or_set_float` of the settings store, as
`get_or_set_bool`. -/
def Config.get_or_set_float (cfg : Config) (key : String) (default : F32)
    (set_defaults : Bool) : F32 × Config :=
  match cfg.entries key with
  | some (ConfigValue.float f) => (f, cfg)
  | _ => (default, if set_defaults then cfg.set_float key default else cfg)

/-- The loop over `this->options` in the two configuration hooks.  The options are
`IModValue` objects of the base pipeline, outside the translated files: loading reads the
store into inherited members, saving writes the options' own keys to the store. -/
structure ModOptions where
  config_load : Config → Bool → OpenXRBase → OpenXRBase
  config_save : OpenXRBase → Config → Config

/-- Method `FoveatedOpenXR::on_config_load`; returns the store as the six reads left it and
the loaded object. -/
def on_config_load (options : ModOptions) (cfg : Config) (set_defaults : Bool)
    (self : FoveatedOpenXR) : Config × FoveatedOpenXR :=
  let r1 := cfg.get_or_set_bool "OpenXR_Foveated_Enabled" false set_defaults
  let r2 := r1.2.get_or_set_float "OpenXR_Foveated_CenterScale" ⟨1065353216⟩ set_defaults
  let r3 := r2.2.get_or_set_float "OpenXR_Foveated_PeripheralScale" ⟨1048576000⟩ set_defaults
  let r4 := r3.2.get_or_set_float "OpenXR_Foveated_CenterSizeX" ⟨1056964608⟩ set_defaults
  let r5 := r4.2.get_or_set_float "OpenXR_Foveated_CenterSizeY" ⟨1056964608⟩ set_defaults
  let r6 := r5.2.get_or_set_bool "OpenXR_Foveated_EyeTracking" false set_defaults
  let s : FoveatedOpenXR :=
    { self with
      foveated_config :=
        { enabled := r1.1
          center_resolution_scale := r2.1
          peripheral_resolution_scale := r3.1
          center_size_x := r4.1
          center_size_y := r5.1
          use_eye_tracking := r6.1 } }
  (r6.2, { s with toOpenXRBase := options.config_load r6.2 set_defaults s.toOpenXRBase })

/-- Method `FoveatedOpenXR::on_config_save`. -/
def on_config_save (options : ModOptions) (self : FoveatedOpenXR) (cfg : Config) : Config :=
  let c1 := cfg.set_bool "OpenXR_Foveated_Enabled" self.foveated_config.enabled
  let c2 := c1.set_float "OpenXR_Foveated_CenterScale"
    self.foveated_config.center_resolution_scale
  let c3 := c2.set_float "OpenXR_Foveated_PeripheralScale"
    self.foveated_config.peripheral_resolution_scale
  let c4 := c3.set_float "OpenXR_Foveated_CenterSizeX" self.foveated_config.center_size_x
  let c5 := c4.set_float "OpenXR_Foveated_CenterSizeY" self.foveated_config.center_size_y
  let c6 := c5.set_bool "OpenXR_Foveated_EyeTracking" self.foveated_config.use_eye_tracking
  options.config_save self.toOpenXRBase c6

/-- The quad-view tail of `setup_foveated_views` with the read of `view_configs[0]`
checked: `none` when the collection is empty at the read. -/
def setup_quad_view_data_checked (oob : F32 → Nat) (self : FoveatedOpenXR) :
    Option FoveatedOpenXR :=
  let s : FoveatedOpenXR :=
    { self with
      foveated_views :=
        { self.foveated_views with
          high_res_views := vector_resize {} self.foveated_views.high_res_views 2
          low_res_views := vector_resize {} self.foveated_views.low_res_views 2
          high_res_configs := vector_resize {} self.foveated_views.high_res_configs 2
          low_res_configs := vector_resize {} self.foveated_views.low_res_configs 2 } }
  match s.view_configs with
  | [] => none
  | c :: _ =>
    some (calculate_foveated_viewports oob s c.recommendedImageRectWidth
      c.recommendedImageRectHeight)

/-- Method `FoveatedOpenXR::setup_foveated_views` with the read of `view_configs[0]`
checked: `none` stands for an out-of-bounds read. -/
def setup_foveated_views_checked (oob : F32 → Nat) (rt : XrRuntime)
    (self : FoveatedOpenXR) : Option (Bool × FoveatedOpenXR) :=
  if self.system = XR_NULL_SYSTEM_ID then some (false, self)
  else
    let r1 := rt.xrEnumerateViewConfigurationViews self.instance_ self.system
      self.view_config 0
    let view_count := r1.2.1
    if XR_FAILED r1.1 then some (false, self)
    else if self.use_quad_views ∧ view_count ≠ 4 then
      some (false, { self with use_quad_views := false })
    else
      let s1 := resize_views self view_count
      let r2 := rt.xrEnumerateViewConfigurationViews s1.instance_ s1.system
        s1.view_config view_count
      let s2 : FoveatedOpenXR :=
        { s1 with view_configs := write_view_configuration_views s1.view_configs r2.2.2 }
      if XR_FAILED r2.1 then some (false, s2)
      else if s2.use_quad_views then
        (setup_quad_view_data_checked oob s2).map (fun s => (true, s))
      else some (true, s2)

/-- Method `FoveatedOpenXR::update_render_target_size` with the read of `view_configs[0]`
checked: `none` stands for an out-of-bounds read. -/
def update_render_target_size_checked (oob : F32 → Nat) (base : BasePipeline)
    (self : FoveatedOpenXR) : Option (Error × FoveatedOpenXR) :=
  if self.foveated_ready = false ∨ self.use_quad_views = false then
    let r := base.update_render_target_size self
    some (r.1, { self with toOpenXRBase := r.2 })
  else if self.session_ready = false ∨ self.view_configs.isEmpty then
    some (Error.SUCCESS, self)
  else
    match self.view_configs with
    | [] => none
    | c :: _ =>
      some (Error.SUCCESS,
        calculate_foveated_viewports oob self c.recommendedImageRectWidth
          c.recommendedImageRectHeight)

/-- Settings the data model calls valid: both resolution scales positive (hence finite),
both centre sizes in `(0, 1]`. -/
def ValidSettings (c : FoveatedConfig) : Prop :=
  0 < c.center_resolution_scale.toRat ∧ 0 < c.peripheral_resolution_scale.toRat ∧
  (0 < c.center_size_x.toRat ∧ c.center_size_x.toRat ≤ 1) ∧
  (0 < c.center_size_y.toRat ∧ c.center_size_y.toRat ≤ 1)

/-- An out-of-range conversion that yields zero. -/
def oob_zero : F32 → Nat := fun _ => 0

/-- Quad-view object with `center_size_x = 0.7f` and every other setting at its default. -/
def rounding_state : FoveatedOpenXR :=
  { use_quad_views := true, foveated_config := { center_size_x := ⟨1060320051⟩ } }

/-- Quad-view object with both centre sizes and the centre scale equal to `1.0f`. -/
def unit_scale_state : FoveatedOpenXR :=
  { use_quad_views := true,
    foveated_config := { center_size_x := ⟨1065353216⟩, center_size_y := ⟨1065353216⟩ } }

/-- Quad-view object with the centre scale `1e10f` (valid, but far beyond any render target)
and every other setting at its default. -/
def huge_scale_state : FoveatedOpenXR :=
  { use_quad_views := true, foveated_config := { center_resolution_scale := ⟨1343554297⟩ } }

/-- The settings of the 2000 x 2000 scenario: enabled, centre scale `1.0f`, centre size
`0.5f` both ways, peripheral scale `0.25f`. -/
def scenario_config : FoveatedConfig :=
  { enabled := true, center_resolution_scale := ⟨1065353216⟩, center_size_x := ⟨1056964608⟩,
    center_size_y := ⟨1056964608⟩, peripheral_resolution_scale := ⟨1048576000⟩ }

/-- Inherited members of an object whose instance and system have been created. -/
def live_base : OpenXRBase :=
  { loaded := true, session_ready := true, instance_ := 1, system := 1 }

/-- A runtime that lists the view-configuration types `types` and reports `n` views, each
with recommended size `w x h`. -/
def sample_runtime (types : List XrViewConfigurationType) (n w h : Nat) : XrRuntime :=
  { xrEnumerateInstanceExtensionProperties := fun _ => (XR_SUCCESS, 0, [])
    xrEnumerateViewConfigurations := fun _ _ cap =>
      (XR_SUCCESS, types.length, if cap = 0 then [] else types)
    xrEnumerateViewConfigurationViews := fun _ _ _ cap =>
      (XR_SUCCESS, n,
        if cap = 0 then []
        else List.replicate n
          { recommendedImageRectWidth := w, recommendedImageRectHeight := h }) }

/-- A runtime with quad-view support, `n` views of 2000 x 2000. -/
def quad_runtime (n : Nat) : XrRuntime :=
  sample_runtime [XR_VIEW_CONFIGURATION_TYPE_PRIMARY_STEREO,
    XR_VIEW_CONFIGURATION_TYPE_PRIMARY_STEREO_WITH_FOVEATED_INSET] n 2000 2000

/-- A runtime without quad-view support (plain stereo only). -/
def stereo_runtime : XrRuntime :=
  sample_runtime [XR_VIEW_CONFIGURATION_TYPE_PRIMARY_STEREO] 2 2000 2000

/-- A base pipeline whose operations succeed and leave the inherited members alone. -/
def idle_base : BasePipeline :=
  { update_matrices := fun self _ _ => (Error.SUCCESS, self.toOpenXRBase)
    update_render_target_size := fun self => (Error.SUCCESS, self.toOpenXRBase)
    destroy := fun self => self.toOpenXRBase }

/-- The single-precision value `(float)base * size * scale`, evaluated left to right. -/
def center_product (base : Nat) (size scale : F32) : F32 :=
  F32.mul (F32.mul (F32.ofUInt32 base) size) scale

/-- The single-precision value `(float)base * scale`. -/
def peripheral_product (base : Nat) (scale : F32) : F32 :=
  F32.mul (F32.ofUInt32 base) scale

/-- The 2000 x 2000 scenario object: freshly constructed over `base` with the scenario
settings, and `use_quad_views` as given (`false` is what the constructor leaves). -/
def scenario_state (base : OpenXRBase) (quad : Bool) : FoveatedOpenXR :=
  { FoveatedOpenXR.fresh base scenario_config with use_quad_views := quad }

/-- View configuration that `initialize_foveated_rendering` queries the views of. -/
def negotiated_view_config (self : FoveatedOpenXR) : XrViewConfigurationType :=
  if self.use_quad_views then self.foveated_view_config else self.view_config

/-- The probe reports no quad-view support: null system, a failed enumeration call, or the
quad-view type absent from the enumerated list. -/
def no_quad_view_support (rt : XrRuntime) (self : FoveatedOpenXR) : Prop :=
  self.system = XR_NULL_SYSTEM_ID ∨
  XR_FAILED (rt.xrEnumerateViewConfigurations self.instance_ self.system 0).1 = true ∨
  XR_FAILED (rt.xrEnumerateViewConfigurations self.instance_ self.system
    (rt.xrEnumerateViewConfigurations self.instance_ self.system 0).2.1).1 = true ∨
  XR_VIEW_CONFIGURATION_TYPE_PRIMARY_STEREO_WITH_FOVEATED_INSET ∉
    write_buffer
      (List.replicate (rt.xrEnumerateViewConfigurations self.instance_ self.system 0).2.1 0)
      (rt.xrEnumerateViewConfigurations self.instance_ self.system
        (rt.xrEnumerateViewConfigurations self.instance_ self.system 0).2.1).2.2

/-- A Ready object as the module itself produces it: a fresh object with the scenario
settings, initialised against the four-view quad runtime. -/
def ready_state : FoveatedOpenXR :=
  (initialize_foveated_rendering oob_zero (quad_runtime 4)
    (FoveatedOpenXR.fresh live_base scenario_config)).2

/-- The Ready object after the settings were put back to their defaults (disabled). -/
def ready_disabled_state : FoveatedOpenXR :=
  { ready_state with foveated_config := {} }

/-- A Ready object in quad-view mode: the scenario object with quad views requested,
initialised against the four-view quad runtime; it holds the layout
1000 x 1000 / 500 x 500. -/
def ready_quad_state : FoveatedOpenXR :=
  (initialize_foveated_rendering oob_zero (quad_runtime 4) (scenario_state live_base true)).2

/-- The stored ViewLayout: high-res width and height, low-res width and height. -/
def view_layout (self : FoveatedOpenXR) : Nat × Nat × Nat × Nat :=
  (self.foveated_views.high_res_width, self.foveated_views.high_res_height,
    self.foveated_views.low_res_width, self.foveated_views.low_res_height)

/-- The foveation state compared by the reset property, the ViewLayout apart: the three
flags, the active view configuration, the lengths of the three per-view collections and of
the four high/low-res sub-collections. -/
def reset_observation (self : FoveatedOpenXR) :
    Bool × Bool × Bool × XrViewConfigurationType × Nat × Nat × Nat × Nat × Nat × Nat × Nat :=
  (self.foveated_ready, self.foveated_supported, self.use_quad_views, self.view_config,
    self.view_configs.length, self.views.length, self.stage_views.length,
    self.foveated_views.high_res_views.length, self.foveated_views.low_res_views.length,
    self.foveated_views.high_res_configs.length, self.foveated_views.low_res_configs.length)

/-- A Ready quad-view object whose session is not ready. -/
def ready_quad_no_session_state : FoveatedOpenXR :=
  { ready_quad_state with session_ready := false }

/-- A base pipeline whose frame updates fail with code 7 and clear `session_ready`. -/
def failing_base : BasePipeline :=
  { update_matrices := fun self _ _ =>
      (Error.FAILURE 7, { self.toOpenXRBase with session_ready := false })
    update_render_target_size := fun self =>
      (Error.FAILURE 7, { self.toOpenXRBase with session_ready := false })
    destroy := fun self => self.toOpenXRBase }

/-- The Ready quad-view object after the runtime changed the first view's recommended size
to 4000 x 2000. -/
def resized_quad_state : FoveatedOpenXR :=
  { ready_quad_state with
    view_configs :=
      { recommendedImageRectWidth := 4000, recommendedImageRectHeight := 2000 } ::
        ready_quad_state.view_configs.tail }

/-- The extension names `check_extensions` iterates over: the buffer of `extension_count`
value-initialised entries after the runtime's fill call, or nothing when the count is zero. -/
def enumerated_extensions (rt : XrRuntime) : List String :=
  if 0 < (rt.xrEnumerateInstanceExtensionProperties 0).2.1 then
    write_buffer (List.replicate (rt.xrEnumerateInstanceExtensionProperties 0).2.1 "")
      (rt.xrEnumerateInstanceExtensionProperties
        (rt.xrEnumerateInstanceExtensionProperties 0).2.1).2.2
  else []

/-- The three recognized extension identifiers. -/
def recognized_extensions : List String :=
  ["XR_VARJO_foveated_rendering", "XR_FB_foveation", "XR_META_foveation_eye_tracked"]

/-- A runtime that advertises exactly the instance extensions `names`. -/
def extension_runtime (names : List String) : XrRuntime :=
  { xrEnumerateInstanceExtensionProperties := fun cap =>
      (XR_SUCCESS, names.length, if cap = 0 then [] else names)
    xrEnumerateViewConfigurations := fun _ _ _ => (XR_SUCCESS, 0, [])
    xrEnumerateViewConfigurationViews := fun _ _ _ _ => (XR_SUCCESS, 0, []) }

/-- The object after one probe against a runtime that advertises the Varjo extension. -/
def varjo_probed_state : FoveatedOpenXR :=
  (check_extensions (extension_runtime ["XR_KHR_D3D11_enable", "XR_VARJO_foveated_rendering"])
    (FoveatedOpenXR.fresh live_base {})).2

/-- The six key names of the foveation settings in the store. -/
def foveated_keys : List String :=
  ["OpenXR_Foveated_Enabled", "OpenXR_Foveated_CenterScale",
    "OpenXR_Foveated_PeripheralScale", "OpenXR_Foveated_CenterSizeX",
    "OpenXR_Foveated_CenterSizeY", "OpenXR_Foveated_EyeTracking"]

/-- The empty settings store. -/
def empty_config : Config := ⟨fun _ => none⟩

/-- Options of the base pipeline that keep one Boolean under their own key. -/
def sample_options : ModOptions :=
  { config_load := fun cfg _ b =>
      match cfg.entries "OpenXR_IgnoreVirtualDesktopChecks" with
      | some (ConfigValue.bool v) => { b with rest := if v then 1 else 0 }
      | _ => b
    config_save := fun b cfg =>
      cfg.set_bool "OpenXR_IgnoreVirtualDesktopChecks" (decide (b.rest = 1)) }

/-- Settings with out-of-range values: a negative centre scale (`-2.0f`), a NaN peripheral
scale and a centre size of `3.0f`. -/
def odd_config : FoveatedConfig :=
  { enabled := true, center_resolution_scale := ⟨3221225472⟩,
    peripheral_resolution_scale := ⟨2143289344⟩, center_size_x := ⟨1077936128⟩,
    center_size_y := ⟨1056964608⟩, use_eye_tracking := true }

namespace F32

theorem toRat_of_sign_false (x : F32) (hf : x.expField ≠ 255) (hs : x.sign = false) :
    x.toRat = (x.significand : ℚ) * (2 : ℚ) ^ x.exponent := by
  simp [toRat, hf, hs]

theorem sign_false_of_toRat_pos (x : F32) (h : 0 < x.toRat) : x.sign = false := by
  unfold toRat at h
  split at h
  · exact absurd h (lt_irrefl _)
  · cases hs : x.sign
    · rfl
    · rw [hs] at h
      have h2 : (0 : ℚ) < (2 : ℚ) ^ x.exponent := by positivity
      have h3 : (0 : ℚ) ≤ (x.significand : ℚ) := by positivity
      simp only [if_true] at h
      nlinarith [mul_nonneg h3 h2.le]

theorem truncMag_eq_floor (x : F32) (hf : x.expField ≠ 255) (hs : x.sign = false) :
    (x.truncMag : ℤ) = ⌊x.toRat⌋ := by
  rw [toRat_of_sign_false x hf hs, truncMag]
  split
  · rename_i h
    obtain ⟨n, hn⟩ := Int.eq_ofNat_of_zero_le h
    rw [hn]
    simp only [Int.toNat_ofNat, zpow_natCast]
    have : ((x.significand : ℚ) * 2 ^ n) = (((x.significand * 2 ^ n : ℕ) : ℤ) : ℚ) := by
      push_cast; ring
    rw [this, Int.floor_intCast]
  · rename_i h
    have h2 : 0 ≤ -x.exponent := by omega
    obtain ⟨n, hn⟩ := Int.eq_ofNat_of_zero_le h2
    have he : x.exponent = -(n : ℤ) := by omega
    rw [hn, he]
    simp only [Int.toNat_ofNat, zpow_neg, zpow_natCast]
    have : ((x.significand : ℚ) * (2 ^ n)⁻¹) =
        ((x.significand : ℤ) : ℚ) / ((2 ^ n : ℕ) : ℚ) := by
      push_cast; rw [div_eq_mul_inv]
    rw [this, Rat.floor_intCast_div_natCast]
    push_cast; rfl

theorem sign_mk_of_lt (neg : Bool) (mag : Nat) (h : mag < 2147483648) :
    sign ⟨signBits neg + mag⟩ = neg := by
  cases neg <;> simp [sign, signBits] <;> omega

theorem sign_inf (neg : Bool) : sign (inf neg) = neg := sign_mk_of_lt neg _ (by norm_num)

theorem sign_round (neg : Bool) (m : Nat) (e : Int) : (round neg m e).sign = neg := by
  unfold round
  split
  · exact sign_inf neg
  · rename_i h
    exact sign_mk_of_lt neg _ (by omega)

theorem sign_mul (a b : F32) (ha : a.sign = false) (hb : b.sign = false) :
    (mul a b).sign = false := by
  unfold mul
  split
  · decide
  · simp only [ha, hb]
    split
    · split
      · decide
      · exact sign_inf _
    · split
      · split
        · decide
        · exact sign_inf _
      · exact sign_round _ _ _

theorem toUInt32_eq_floor (oob : F32 → Nat) (x : F32) (hs : x.sign = false)
    (hr : x.inUInt32Range = true) : (toUInt32 oob x : ℤ) = ⌊x.toRat⌋ := by
  have hf : x.expField ≠ 255 := by
    simp [inUInt32Range] at hr; exact hr.1
  simp [toUInt32, hr, hs, truncMag_eq_floor x hf hs]

theorem toUInt32_of_inRange (oob : F32 → Nat) (x : F32) (hs : x.sign = false)
    (hr : x.inUInt32Range = true) : toUInt32 oob x = x.truncMag := by
  simp [toUInt32, hr, hs]

end F32

/-! ## Layout calculator -/

theorem center_product_sign (base : Nat) (size scale : F32) (h1 : 0 < size.toRat)
    (h2 : 0 < scale.toRat) : (center_product base size scale).sign = false :=
  F32.sign_mul _ _ (F32.sign_mul _ _ (F32.sign_round _ _ _) (F32.sign_false_of_toRat_pos _ h1))
    (F32.sign_false_of_toRat_pos _ h2)

theorem peripheral_product_sign (base : Nat) (scale : F32) (h : 0 < scale.toRat) :
    (peripheral_product base scale).sign = false :=
  F32.sign_mul _ _ (F32.sign_round _ _ _) (F32.sign_false_of_toRat_pos _ h)

/-- C1 (counterexample).  With quad views active and valid settings the stored width is not
the floor of the exact product.  (a) Base size 10 x 10, `center_size_x = 0.7f`,
`center_resolution_scale = 1.0f`: the stored `high_res_width` is 7 while the floor of the
exact product `10 * center_size_x * center_resolution_scale` is 6, because the
single-precision multiplication rounds `6.99999988...` up to `7.0f` before the cast.
(b) Base width `2 ^ 24 + 1` with both factors `1.0f`: the stored `high_res_width` is
`2 ^ 24`, because the conversion of the width to `float` already rounds. -/
theorem calculate_foveated_viewports_not_exact_floor :
    (rounding_state.use_quad_views = true ∧ ValidSettings rounding_state.foveated_config ∧
      (calculate_foveated_viewports oob_zero rounding_state 10 10).foveated_views.high_res_width
        = 7 ∧
      ⌊(10 : ℚ) * rounding_state.foveated_config.center_size_x.toRat *
          rounding_state.foveated_config.center_resolution_scale.toRat⌋ = 6) ∧
    (unit_scale_state.use_quad_views = true ∧ ValidSettings unit_scale_state.foveated_config ∧
      (calculate_foveated_viewports oob_zero unit_scale_state 16777217
        16777217).foveated_views.high_res_width = 16777216 ∧
      ⌊(16777217 : ℚ) * unit_scale_state.foveated_config.center_size_x.toRat *
          unit_scale_state.foveated_config.center_resolution_scale.toRat⌋ = 16777217) := by
  refine ⟨⟨rfl, ?_, by decide, ?_⟩, ⟨rfl, ?_, by decide, ?_⟩⟩
  · simp only [ValidSettings, rounding_state]
    norm_num [F32.toRat, F32.expField, F32.sign, F32.significand, F32.fracField, F32.exponent]
  · rw [Int.floor_eq_iff]
    norm_num [rounding_state, F32.toRat, F32.expField, F32.sign, F32.significand,
      F32.fracField, F32.exponent]
  · simp only [ValidSettings, unit_scale_state]
    norm_num [F32.toRat, F32.expField, F32.sign, F32.significand, F32.fracField, F32.exponent]
  · rw [Int.floor_eq_iff]
    norm_num [unit_scale_state, F32.toRat, F32.expField, F32.sign, F32.significand,
      F32.fracField, F32.exponent]

/-- C1 (amended).  With quad views active and valid settings, each stored dimension is, on
its own, the floor of its single-precision product whenever that product is in `uint32_t`
range (`(float)base_width * center_size_x * center_resolution_scale` evaluated left to
right, the conversion and each multiplication rounded to nearest binary32; likewise for the
other three); there is no clamping, and nothing else in the object changes. -/
theorem calculate_foveated_viewports_single_precision (oob : F32 → Nat)
    (self : FoveatedOpenXR) (base_width base_height : Nat)
    (hq : self.use_quad_views = true) (hv : ValidSettings self.foveated_config) :
    ((center_product base_width self.foveated_config.center_size_x
        self.foveated_config.center_resolution_scale).inUInt32Range = true →
      ((calculate_foveated_viewports oob self base_width
          base_height).foveated_views.high_res_width : ℤ) =
        ⌊(center_product base_width self.foveated_config.center_size_x
          self.foveated_config.center_resolution_scale).toRat⌋) ∧
    ((center_product base_height self.foveated_config.center_size_y
        self.foveated_config.center_resolution_scale).inUInt32Range = true →
      ((calculate_foveated_viewports oob self base_width
          base_height).foveated_views.high_res_height : ℤ) =
        ⌊(center_product base_height self.foveated_config.center_size_y
          self.foveated_config.center_resolution_scale).toRat⌋) ∧
    ((peripheral_product base_width
        self.foveated_config.peripheral_resolution_scale).inUInt32Range = true →
      ((calculate_foveated_viewports oob self base_width
          base_height).foveated_views.low_res_width : ℤ) =
        ⌊(peripheral_product base_width
          self.foveated_config.peripheral_resolution_scale).toRat⌋) ∧
    ((peripheral_product base_height
        self.foveated_config.peripheral_resolution_scale).inUInt32Range = true →
      ((calculate_foveated_viewports oob self base_width
          base_height).foveated_views.low_res_height : ℤ) =
        ⌊(peripheral_product base_height
          self.foveated_config.peripheral_resolution_scale).toRat⌋) ∧
    calculate_foveated_viewports oob self base_width base_height =
      { self with
        foveated_views :=
          { self.foveated_views with
            high_res_width :=
              (calculate_foveated_viewports oob self base_width
                base_height).foveated_views.high_res_width
            high_res_height :=
              (calculate_foveated_viewports oob self base_width
                base_height).foveated_views.high_res_height
            low_res_width :=
              (calculate_foveated_viewports oob self base_width
                base_height).foveated_views.low_res_width
            low_res_height :=
              (calculate_foveated_viewports oob self base_width
                base_height).foveated_views.low_res_height } } := by
  obtain ⟨hc, hp, ⟨hx, _⟩, ⟨hy, _⟩⟩ := hv
  have e1 := F32.toUInt32_eq_floor oob _ (center_product_sign base_width _ _ hx hc)
  have e2 := F32.toUInt32_eq_floor oob _ (center_product_sign base_height _ _ hy hc)
  have e3 := F32.toUInt32_eq_floor oob _ (peripheral_product_sign base_width _ hp)
  have e4 := F32.toUInt32_eq_floor oob _ (peripheral_product_sign base_height _ hp)
  simp only [center_product, peripheral_product] at e1 e2 e3 e4
  simp only [calculate_foveated_viewports, hq, center_product, peripheral_product]
  exact ⟨e1, e2, e3, e4, rfl⟩

/-- C1 (witness).  (a) At 2000 x 2000 with the scenario settings every product is in range
and the stored width is the floor of its float product.  (b) With the centre scale raised to
`1e10f` the centre products leave the `uint32_t` range, while the peripheral products stay
in range and the stored low-res size is still the floor of its float product, 500 x 500. -/
theorem calculate_foveated_viewports_single_precision_witness :
    (ValidSettings (scenario_state live_base true).foveated_config ∧
      ((calculate_foveated_viewports oob_zero (scenario_state live_base true) 2000
          2000).foveated_views.high_res_width : ℤ) =
        ⌊(center_product 2000 (scenario_state live_base true).foveated_config.center_size_x
          (scenario_state live_base true).foveated_config.center_resolution_scale).toRat⌋) ∧
    (ValidSettings huge_scale_state.foveated_config ∧
      (center_product 2000 huge_scale_state.foveated_config.center_size_x
        huge_scale_state.foveated_config.center_resolution_scale).inUInt32Range = false ∧
      ((calculate_foveated_viewports oob_zero huge_scale_state 2000
          2000).foveated_views.low_res_width : ℤ) =
        ⌊(peripheral_product 2000
          huge_scale_state.foveated_config.peripheral_resolution_scale).toRat⌋ ∧
      (calculate_foveated_viewports oob_zero huge_scale_state 2000
        2000).foveated_views.low_res_width = 500 ∧
      (calculate_foveated_viewports oob_zero huge_scale_state 2000
        2000).foveated_views.low_res_height = 500) := by
  have hv : ValidSettings (scenario_state live_base true).foveated_config := by
    simp only [ValidSettings, scenario_state, FoveatedOpenXR.fresh, scenario_config]
    norm_num [F32.toRat, F32.expField, F32.sign, F32.significand, F32.fracField, F32.exponent]
  have hv2 : ValidSettings huge_scale_state.foveated_config := by
    simp only [ValidSettings, huge_scale_state]
    norm_num [F32.toRat, F32.expField, F32.sign, F32.significand, F32.fracField, F32.exponent]
  exact ⟨⟨hv, (calculate_foveated_viewports_single_precision oob_zero
      (scenario_state live_base true) 2000 2000 rfl hv).1 (by decide)⟩,
    ⟨hv2, by decide, (calculate_foveated_viewports_single_precision oob_zero
      huge_scale_state 2000 2000 rfl hv2).2.2.1 (by decide), by decide, by decide⟩⟩

/-! ## Lemmas on vectors and output buffers -/

theorem vector_resize_length {α : Type} (zero : α) (v : List α) (n : Nat) :
    (vector_resize zero v n).length = n := by
  simp [vector_resize]
  omega

theorem write_view_configuration_views_length (buf out : List XrViewConfigurationView) :
    (write_view_configuration_views buf out).length = buf.length := by
  simp [write_view_configuration_views]
  omega

theorem head_write_width (buf : List XrViewConfigurationView)
    (v d : XrViewConfigurationView) (vs : List XrViewConfigurationView)
    (h : 0 < buf.length) :
    ((write_view_configuration_views buf (v :: vs)).head?.getD d).recommendedImageRectWidth
      = v.recommendedImageRectWidth := by
  cases buf with
  | nil => simp at h
  | cons b bs => simp [write_view_configuration_views, fill_view_configuration_view]

theorem head_write_height (buf : List XrViewConfigurationView)
    (v d : XrViewConfigurationView) (vs : List XrViewConfigurationView)
    (h : 0 < buf.length) :
    ((write_view_configuration_views buf (v :: vs)).head?.getD d).recommendedImageRectHeight
      = v.recommendedImageRectHeight := by
  cases buf with
  | nil => simp at h
  | cons b bs => simp [write_view_configuration_views, fill_view_configuration_view]

@[simp] theorem resize_views_view_configs_length (self : FoveatedOpenXR) (n : Nat) :
    (resize_views self n).view_configs.length = n := by
  simp [resize_views, vector_resize_length]

@[simp] theorem resize_views_views_length (self : FoveatedOpenXR) (n : Nat) :
    (resize_views self n).views.length = n := by
  simp [resize_views, vector_resize_length]

@[simp] theorem resize_views_stage_views_length (self : FoveatedOpenXR) (n : Nat) :
    (resize_views self n).stage_views.length = n := by
  simp [resize_views, vector_resize_length]

@[simp] theorem resize_views_system (self : FoveatedOpenXR) (n : Nat) :
    (resize_views self n).system = self.system := rfl

@[simp] theorem resize_views_instance (self : FoveatedOpenXR) (n : Nat) :
    (resize_views self n).instance_ = self.instance_ := rfl

@[simp] theorem resize_views_view_config (self : FoveatedOpenXR) (n : Nat) :
    (resize_views self n).view_config = self.view_config := rfl

@[simp] theorem resize_views_use_quad_views (self : FoveatedOpenXR) (n : Nat) :
    (resize_views self n).use_quad_views = self.use_quad_views := rfl

@[simp] theorem resize_views_foveated_config (self : FoveatedOpenXR) (n : Nat) :
    (resize_views self n).foveated_config = self.foveated_config := rfl

@[simp] theorem resize_views_foveated_views (self : FoveatedOpenXR) (n : Nat) :
    (resize_views self n).foveated_views = self.foveated_views := rfl

@[simp] theorem resize_views_foveated_ready (self : FoveatedOpenXR) (n : Nat) :
    (resize_views self n).foveated_ready = self.foveated_ready := rfl

@[simp] theorem resize_views_foveated_supported (self : FoveatedOpenXR) (n : Nat) :
    (resize_views self n).foveated_supported = self.foveated_supported := rfl

/-! ## Initialization controller -/

theorem system_ne_null_of_support (rt : XrRuntime) (self : FoveatedOpenXR)
    (h : check_foveated_support rt self = true) : self.system ≠ XR_NULL_SYSTEM_ID := by
  intro hs
  simp [check_foveated_support, hs] at h

theorem toUInt32_scenario_center (oob : F32 → Nat) :
    F32.toUInt32 oob (F32.mul (F32.mul (F32.ofUInt32 2000) ⟨1056964608⟩) ⟨1065353216⟩)
      = 1000 := by
  have h : F32.mul (F32.mul (F32.ofUInt32 2000) ⟨1056964608⟩) ⟨1065353216⟩
      = ⟨1148846080⟩ := by decide
  rw [h, F32.toUInt32_of_inRange oob _ (by decide) (by decide)]
  decide

theorem toUInt32_scenario_peripheral (oob : F32 → Nat) :
    F32.toUInt32 oob (F32.mul (F32.ofUInt32 2000) ⟨1048576000⟩) = 500 := by
  have h : F32.mul (F32.ofUInt32 2000) ⟨1048576000⟩ = ⟨1140457472⟩ := by decide
  rw [h, F32.toUInt32_of_inRange oob _ (by decide) (by decide)]
  decide

/-- C2 (counterexample).  From a freshly constructed object with the scenario settings, a
runtime that supports quad views and reports 4 views of 2000 x 2000:
`initialize_foveated_rendering` returns true and the object is Ready, but the stored layout
is still 0 x 0 / 0 x 0, not 1000 x 1000 / 500 x 500 (the constructor leaves
`use_quad_views = false`, so the layout calculator is not run). -/
theorem initialize_fresh_scenario_layout_zero :
    (initialize_foveated_rendering oob_zero (quad_runtime 4)
      (FoveatedOpenXR.fresh live_base scenario_config)).1 = true ∧
    (initialize_foveated_rendering oob_zero (quad_runtime 4)
      (FoveatedOpenXR.fresh live_base scenario_config)).2.foveated_ready = true ∧
    (initialize_foveated_rendering oob_zero (quad_runtime 4)
      (FoveatedOpenXR.fresh live_base scenario_config)).2.foveated_views.high_res_width = 0 ∧
    (initialize_foveated_rendering oob_zero (quad_runtime 4)
      (FoveatedOpenXR.fresh live_base scenario_config)).2.foveated_views.high_res_height = 0 ∧
    (initialize_foveated_rendering oob_zero (quad_runtime 4)
      (FoveatedOpenXR.fresh live_base scenario_config)).2.foveated_views.low_res_width = 0 ∧
    (initialize_foveated_rendering oob_zero (quad_runtime 4)
      (FoveatedOpenXR.fresh live_base scenario_config)).2.foveated_views.low_res_height = 0 := by
  decide

/-- C2 (amended).  Scenario object (fresh, scenario settings) over any inherited members,
with a probe that reports quad-view support, a view count of 4 and a first view of
2000 x 2000 for the view configuration in use: `initialize_foveated_rendering` returns
true and the state is Ready; the stored layout is 1000 x 1000 / 500 x 500 when quad-view
mode is active (`use_quad_views = true`), and stays 0 x 0 / 0 x 0 on the object as
constructed (`use_quad_views = false`). -/
theorem initialize_scenario_layout (oob : F32 → Nat) (rt : XrRuntime) (base : OpenXRBase)
    (quad : Bool) (v : XrViewConfigurationView) (vs : List XrViewConfigurationView)
    (hprobe : check_foveated_support rt (scenario_state base quad) = true)
    (hcount : XR_FAILED (rt.xrEnumerateViewConfigurationViews base.instance_ base.system
        (negotiated_view_config (scenario_state base quad)) 0).1 = false ∧
      (rt.xrEnumerateViewConfigurationViews base.instance_ base.system
        (negotiated_view_config (scenario_state base quad)) 0).2.1 = 4)
    (hfill : XR_FAILED (rt.xrEnumerateViewConfigurationViews base.instance_ base.system
        (negotiated_view_config (scenario_state base quad)) 4).1 = false ∧
      (rt.xrEnumerateViewConfigurationViews base.instance_ base.system
        (negotiated_view_config (scenario_state base quad)) 4).2.2 = v :: vs)
    (hsize : v.recommendedImageRectWidth = 2000 ∧ v.recommendedImageRectHeight = 2000) :
    (initialize_foveated_rendering oob rt (scenario_state base quad)).1 = true ∧
    (initialize_foveated_rendering oob rt (scenario_state base quad)).2.foveated_ready = true ∧
    (initialize_foveated_rendering oob rt (scenario_state base quad)).2.foveated_supported
      = true ∧
    (initialize_foveated_rendering oob rt
      (scenario_state base quad)).2.foveated_views.high_res_width
      = (if quad then 1000 else 0) ∧
    (initialize_foveated_rendering oob rt
      (scenario_state base quad)).2.foveated_views.high_res_height
      = (if quad then 1000 else 0) ∧
    (initialize_foveated_rendering oob rt
      (scenario_state base quad)).2.foveated_views.low_res_width
      = (if quad then 500 else 0) ∧
    (initialize_foveated_rendering oob rt
      (scenario_state base quad)).2.foveated_views.low_res_height
      = (if quad then 500 else 0) := by
  have hsys := system_ne_null_of_support rt _ hprobe
  obtain ⟨hc1, hc2⟩ := hcount
  obtain ⟨hf1, hf2⟩ := hfill
  obtain ⟨hw, hh⟩ := hsize
  cases quad
  · simp [scenario_state, FoveatedOpenXR.fresh, negotiated_view_config,
      scenario_config] at hprobe hc1 hc2 hf1 hf2 hsys
    simp [scenario_state, FoveatedOpenXR.fresh, initialize_foveated_rendering,
      scenario_config, hprobe, setup_foveated_views, hsys, hc1, hc2, hf1, hf2, resize_views]
  · simp [scenario_state, FoveatedOpenXR.fresh, negotiated_view_config,
      scenario_config] at hprobe hc1 hc2 hf1 hf2 hsys
    simp [scenario_state, FoveatedOpenXR.fresh, initialize_foveated_rendering,
      scenario_config, hprobe, setup_foveated_views, hsys,
      hc1, hc2, hf1, hf2, setup_quad_view_data, calculate_foveated_viewports,
      head_write_width, head_write_height, hw, hh,
      toUInt32_scenario_center, toUInt32_scenario_peripheral]

/-- C2 (witness).  The amended scenario at the sample runtime with four 2000 x 2000 views
and quad-view mode active: the hypotheses hold and the layout is 1000 x 1000 / 500 x 500. -/
theorem initialize_scenario_layout_witness :
    check_foveated_support (quad_runtime 4) (scenario_state live_base true) = true ∧
    (initialize_foveated_rendering oob_zero (quad_runtime 4)
      (scenario_state live_base true)).1 = true ∧
    (initialize_foveated_rendering oob_zero (quad_runtime 4)
      (scenario_state live_base true)).2.foveated_ready = true ∧
    (initialize_foveated_rendering oob_zero (quad_runtime 4)
      (scenario_state live_base true)).2.foveated_supported = true ∧
    (initialize_foveated_rendering oob_zero (quad_runtime 4)
      (scenario_state live_base true)).2.foveated_views.high_res_width = 1000 ∧
    (initialize_foveated_rendering oob_zero (quad_runtime 4)
      (scenario_state live_base true)).2.foveated_views.high_res_height = 1000 ∧
    (initialize_foveated_rendering oob_zero (quad_runtime 4)
      (scenario_state live_base true)).2.foveated_views.low_res_width = 500 ∧
    (initialize_foveated_rendering oob_zero (quad_runtime 4)
      (scenario_state live_base true)).2.foveated_views.low_res_height = 500 :=
  ⟨by decide,
    initialize_scenario_layout oob_zero (quad_runtime 4) live_base true
      { recommendedImageRectWidth := 2000, recommendedImageRectHeight := 2000 }
      (List.replicate 3 { recommendedImageRectWidth := 2000, recommendedImageRectHeight := 2000 })
      (by decide) ⟨by decide, by decide⟩ ⟨by decide, by decide⟩ ⟨rfl, rfl⟩⟩

theorem check_foveated_support_eq_false_iff (rt : XrRuntime) (self : FoveatedOpenXR) :
    check_foveated_support rt self = false ↔ no_quad_view_support rt self := by
  unfold check_foveated_support no_quad_view_support
  by_cases h0 : self.system = XR_NULL_SYSTEM_ID
  · simp [h0]
  · by_cases h1 : XR_FAILED (rt.xrEnumerateViewConfigurations self.instance_ self.system 0).1
        = true
    · simp [h0, h1]
    · by_cases h2 : XR_FAILED (rt.xrEnumerateViewConfigurations self.instance_ self.system
          (rt.xrEnumerateViewConfigurations self.instance_ self.system 0).2.1).1 = true
      · simp [h0, h1, h2]
      · simp [h0, h1, h2]
        constructor
        · intro h hm
          exact h _ hm rfl
        · intro h x hx hxe
          exact h (hxe ▸ hx)

/-- C3 (counterexample).  A Ready object whose settings are disabled: the call returns
false but the object is still Ready and still marked supported, and `ready()` is true, so
the state afterwards is not Unsupported. -/
theorem disabled_settings_stay_ready :
    ready_disabled_state.foveated_config.enabled = false ∧
    ready_disabled_state.foveated_ready = true ∧
    (initialize_foveated_rendering oob_zero stereo_runtime ready_disabled_state).1 = false ∧
    (initialize_foveated_rendering oob_zero stereo_runtime
      ready_disabled_state).2.foveated_ready = true ∧
    (initialize_foveated_rendering oob_zero stereo_runtime
      ready_disabled_state).2.foveated_supported = true ∧
    ready (initialize_foveated_rendering oob_zero stereo_runtime ready_disabled_state).2
      = true := by
  decide

/-- C3 (amended).  For every prior state and every probe result, if `settings.enabled` is
false then `initialize_foveated_rendering` returns failure and leaves the object unchanged
(no probe runs, no flag is written); so the state afterwards is Unsupported and `ready()`
is false whenever both flags were false before the call, as on a freshly constructed
object. -/
theorem initialize_disabled_unchanged (oob : F32 → Nat) (rt : XrRuntime)
    (self : FoveatedOpenXR) (h : self.foveated_config.enabled = false) :
    initialize_foveated_rendering oob rt self = (false, self) ∧
    (self.foveated_supported = false ∧ self.foveated_ready = false →
      (initialize_foveated_rendering oob rt self).2.foveated_supported = false ∧
      (initialize_foveated_rendering oob rt self).2.foveated_ready = false ∧
      ready (initialize_foveated_rendering oob rt self).2 = false) := by
  have e : initialize_foveated_rendering oob rt self = (false, self) := by
    simp [initialize_foveated_rendering, h]
  rw [e]
  refine ⟨rfl, fun hp => ⟨hp.1, hp.2, ?_⟩⟩
  simp [ready, hp.2]

/-- C3 (witness).  Default settings on a fresh object, probe without quad-view support. -/
theorem initialize_disabled_unchanged_witness :
    (FoveatedOpenXR.fresh live_base {}).foveated_config.enabled = false ∧
    initialize_foveated_rendering oob_zero stereo_runtime (FoveatedOpenXR.fresh live_base {})
      = (false, FoveatedOpenXR.fresh live_base {}) ∧
    ready (initialize_foveated_rendering oob_zero stereo_runtime
      (FoveatedOpenXR.fresh live_base {})).2 = false :=
  ⟨rfl,
    (initialize_disabled_unchanged oob_zero stereo_runtime (FoveatedOpenXR.fresh live_base {})
      rfl).1,
    ((initialize_disabled_unchanged oob_zero stereo_runtime (FoveatedOpenXR.fresh live_base {})
      rfl).2 ⟨rfl, rfl⟩).2.2⟩

/-- C4 (counterexample).  Settings enabled, probe without quad-view support.  (a) From the
Ready object the module produces, the call returns false and clears `foveated_supported`, but
`foveated_ready` is still true: the state afterwards is not Unsupported.  (b) From a Ready
object in quad-view mode, `foveated_ready` and `use_quad_views` are both still true after the
failed call: the object is still Ready with quad-view mode active. -/
theorem unsupported_probe_stays_ready :
    (ready_state.foveated_config.enabled = true ∧ ready_state.foveated_ready = true ∧
      no_quad_view_support stereo_runtime ready_state ∧
      (initialize_foveated_rendering oob_zero stereo_runtime ready_state).1 = false ∧
      (initialize_foveated_rendering oob_zero stereo_runtime
        ready_state).2.foveated_supported = false ∧
      (initialize_foveated_rendering oob_zero stereo_runtime
        ready_state).2.foveated_ready = true) ∧
    (ready_quad_state.foveated_config.enabled = true ∧
      no_quad_view_support stereo_runtime ready_quad_state ∧
      (initialize_foveated_rendering oob_zero stereo_runtime ready_quad_state).1 = false ∧
      (initialize_foveated_rendering oob_zero stereo_runtime
        ready_quad_state).2.foveated_ready = true ∧
      (initialize_foveated_rendering oob_zero stereo_runtime
        ready_quad_state).2.use_quad_views = true) := by
  refine ⟨⟨by decide, by decide, ?_, by decide, by decide, by decide⟩,
    ⟨rfl, ?_, by decide, by decide, by decide⟩⟩
  · rw [← check_foveated_support_eq_false_iff]
    decide
  · rw [← check_foveated_support_eq_false_iff]
    decide

/-- C4 (amended).  For every prior state with `settings.enabled = true`, if the probe
reports no quad-view support (null system, failed enumeration, or quad-view type absent),
`initialize_foveated_rendering` returns failure, sets `foveated_supported = false` and
changes nothing else; `foveated_ready` keeps its prior value, so the state afterwards is
Unsupported whenever the object was not Ready before the call. -/
theorem initialize_unsupported_clears_supported (oob : F32 → Nat) (rt : XrRuntime)
    (self : FoveatedOpenXR)
    (hen : self.foveated_config.enabled = true) (hprobe : no_quad_view_support rt self) :
    initialize_foveated_rendering oob rt self
      = (false, { self with foveated_supported := false }) ∧
    (self.foveated_ready = false →
      (initialize_foveated_rendering oob rt self).2.foveated_supported = false ∧
      (initialize_foveated_rendering oob rt self).2.foveated_ready = false) := by
  rw [← check_foveated_support_eq_false_iff] at hprobe
  have e : initialize_foveated_rendering oob rt self
      = (false, { self with foveated_supported := false }) := by
    simp [initialize_foveated_rendering, hen, hprobe]
  rw [e]
  exact ⟨rfl, fun hr => ⟨rfl, hr⟩⟩

/-- C4 (witness).  The enabled scenario object, not yet Ready, against a stereo-only
runtime. -/
theorem initialize_unsupported_clears_supported_witness :
    no_quad_view_support stereo_runtime (scenario_state live_base false) ∧
    initialize_foveated_rendering oob_zero stereo_runtime (scenario_state live_base false)
      = (false, { scenario_state live_base false with foveated_supported := false }) :=
  ⟨(check_foveated_support_eq_false_iff _ _).1 (by decide),
    (initialize_unsupported_clears_supported oob_zero stereo_runtime
      (scenario_state live_base false) rfl
      ((check_foveated_support_eq_false_iff _ _).1 (by decide))).1⟩

theorem calculate_foveated_viewports_base (oob : F32 → Nat) (self : FoveatedOpenXR)
    (w h : Nat) :
    (calculate_foveated_viewports oob self w h).toOpenXRBase = self.toOpenXRBase := by
  unfold calculate_foveated_viewports
  split <;> rfl

theorem calculate_foveated_viewports_flags (oob : F32 → Nat) (self : FoveatedOpenXR)
    (w h : Nat) :
    (calculate_foveated_viewports oob self w h).foveated_ready = self.foveated_ready ∧
    (calculate_foveated_viewports oob self w h).foveated_supported = self.foveated_supported ∧
    (calculate_foveated_viewports oob self w h).use_quad_views = self.use_quad_views := by
  unfold calculate_foveated_viewports
  split <;> exact ⟨rfl, rfl, rfl⟩

theorem setup_quad_view_data_base (oob : F32 → Nat) (self : FoveatedOpenXR) :
    (setup_quad_view_data oob self).toOpenXRBase = self.toOpenXRBase := by
  unfold setup_quad_view_data
  exact calculate_foveated_viewports_base _ _ _ _

theorem setup_quad_view_data_flags (oob : F32 → Nat) (self : FoveatedOpenXR) :
    (setup_quad_view_data oob self).foveated_ready = self.foveated_ready ∧
    (setup_quad_view_data oob self).foveated_supported = self.foveated_supported ∧
    (setup_quad_view_data oob self).use_quad_views = self.use_quad_views := by
  unfold setup_quad_view_data
  exact calculate_foveated_viewports_flags _ _ _ _

theorem setup_foveated_views_foveated_ready (oob : F32 → Nat) (rt : XrRuntime)
    (self : FoveatedOpenXR) :
    (setup_foveated_views oob rt self).2.foveated_ready = self.foveated_ready := by
  simp only [setup_foveated_views]
  split_ifs <;> first | rfl | exact (setup_quad_view_data_flags _ _).1

theorem setup_foveated_views_foveated_supported (oob : F32 → Nat) (rt : XrRuntime)
    (self : FoveatedOpenXR) :
    (setup_foveated_views oob rt self).2.foveated_supported = self.foveated_supported := by
  simp only [setup_foveated_views]
  split_ifs <;> first | rfl | exact (setup_quad_view_data_flags _ _).2.1

theorem setup_foveated_views_success_iff (oob : F32 → Nat) (rt : XrRuntime)
    (self : FoveatedOpenXR) :
    (setup_foveated_views oob rt self).1 = true ↔
      self.system ≠ XR_NULL_SYSTEM_ID ∧
      XR_FAILED (rt.xrEnumerateViewConfigurationViews self.instance_ self.system
        self.view_config 0).1 = false ∧
      (self.use_quad_views = true →
        (rt.xrEnumerateViewConfigurationViews self.instance_ self.system
          self.view_config 0).2.1 = 4) ∧
      XR_FAILED (rt.xrEnumerateViewConfigurationViews self.instance_ self.system
        self.view_config (rt.xrEnumerateViewConfigurationViews self.instance_ self.system
          self.view_config 0).2.1).1 = false := by
  simp only [setup_foveated_views]
  split_ifs <;> simp_all

theorem initialize_foveated_rendering_foveated_ready (oob : F32 → Nat) (rt : XrRuntime)
    (self : FoveatedOpenXR) :
    (initialize_foveated_rendering oob rt self).2.foveated_ready =
      ((initialize_foveated_rendering oob rt self).1 || self.foveated_ready) := by
  simp only [initialize_foveated_rendering]
  split_ifs <;> simp_all [setup_foveated_views_foveated_ready]

theorem initialize_foveated_rendering_success_iff (oob : F32 → Nat) (rt : XrRuntime)
    (self : FoveatedOpenXR) :
    (initialize_foveated_rendering oob rt self).1 = true ↔
      self.foveated_config.enabled = true ∧ check_foveated_support rt self = true ∧
      (setup_foveated_views oob rt
        { self with foveated_supported := true,
                    view_config := negotiated_view_config self }).1 = true := by
  simp only [initialize_foveated_rendering, negotiated_view_config]
  cases hq : self.use_quad_views <;> split_ifs <;> simp_all

/-- C5 (counterexample).  A Ready object whose settings are disabled: the call is not a
success, it returns false. -/
theorem ready_initialize_can_fail :
    ready_disabled_state.foveated_ready = true ∧
    (initialize_foveated_rendering oob_zero (quad_runtime 4) ready_disabled_state).1
      = false := by
  decide

/-- C5 (amended).  From a Ready state `initialize_foveated_rendering` is not short-circuited:
it re-runs the settings gate, the probe and the view setup as from any other state.  It
returns true exactly when `settings.enabled` holds, the probe reports support and the view
setup succeeds; it leaves `foveated_ready = true` whatever it returns, and it leaves the
whole object unchanged when `settings.enabled` is false. -/
theorem initialize_from_ready_reruns (oob : F32 → Nat) (rt : XrRuntime)
    (self : FoveatedOpenXR)
    (hr : self.foveated_ready = true) :
    (initialize_foveated_rendering oob rt self).2.foveated_ready = true ∧
    ((initialize_foveated_rendering oob rt self).1 = true ↔
      self.foveated_config.enabled = true ∧ check_foveated_support rt self = true ∧
      (setup_foveated_views oob rt
        { self with foveated_supported := true,
                    view_config := negotiated_view_config self }).1 = true) ∧
    (self.foveated_config.enabled = false →
      initialize_foveated_rendering oob rt self = (false, self)) := by
  refine ⟨?_, initialize_foveated_rendering_success_iff oob rt self, fun h => ?_⟩
  · rw [initialize_foveated_rendering_foveated_ready, hr, Bool.or_true]
  · simp [initialize_foveated_rendering, h]

/-- C5 (witness).  The Ready quad-view object against the four-view runtime: still Ready. -/
theorem initialize_from_ready_reruns_witness :
    ready_quad_state.foveated_ready = true ∧
    (initialize_foveated_rendering oob_zero (quad_runtime 4) ready_quad_state).2.foveated_ready
      = true :=
  ⟨rfl, (initialize_from_ready_reruns oob_zero (quad_runtime 4) ready_quad_state rfl).1⟩

/-- C6 (counterexample).  A Ready object in quad-view mode, settings enabled, probe with
quad-view support, view count 3: the call returns false, clears `use_quad_views` and sets
`foveated_supported`, but `foveated_ready` is still true, so the state afterwards is Ready
and not SupportedNotReady. -/
theorem view_count_mismatch_stays_ready :
    ready_quad_state.foveated_config.enabled = true ∧
    ready_quad_state.use_quad_views = true ∧
    check_foveated_support (quad_runtime 3) ready_quad_state = true ∧
    (initialize_foveated_rendering oob_zero (quad_runtime 3) ready_quad_state).1 = false ∧
    (initialize_foveated_rendering oob_zero (quad_runtime 3)
      ready_quad_state).2.use_quad_views = false ∧
    (initialize_foveated_rendering oob_zero (quad_runtime 3)
      ready_quad_state).2.foveated_supported = true ∧
    (initialize_foveated_rendering oob_zero (quad_runtime 3)
      ready_quad_state).2.foveated_ready = true := by
  decide

/-- C6 (amended).  For every prior state with `settings.enabled = true` and quad-view mode
requested, if the probe reports quad-view support and the view-count query for the foveated
view configuration succeeds with a count other than 4, then
`initialize_foveated_rendering` returns failure, sets `foveated_supported = true`, switches
`view_config` to the foveated type, clears `use_quad_views` and changes nothing else;
`foveated_ready` keeps its prior value, so the state afterwards is SupportedNotReady
whenever the object was not Ready before the call. -/
theorem initialize_view_count_mismatch_result (oob : F32 → Nat) (rt : XrRuntime)
    (self : FoveatedOpenXR) (hen : self.foveated_config.enabled = true)
    (hq : self.use_quad_views = true) (hprobe : check_foveated_support rt self = true)
    (hok : XR_FAILED (rt.xrEnumerateViewConfigurationViews self.instance_ self.system
      self.foveated_view_config 0).1 = false)
    (hn : (rt.xrEnumerateViewConfigurationViews self.instance_ self.system
      self.foveated_view_config 0).2.1 ≠ 4) :
    initialize_foveated_rendering oob rt self =
      (false, { self with foveated_supported := true,
                          view_config := self.foveated_view_config,
                          use_quad_views := false }) ∧
    (self.foveated_ready = false →
      (initialize_foveated_rendering oob rt self).2.foveated_supported = true ∧
      (initialize_foveated_rendering oob rt self).2.foveated_ready = false) := by
  have hsys := system_ne_null_of_support rt self hprobe
  have e : initialize_foveated_rendering oob rt self =
      (false, { self with foveated_supported := true,
                          view_config := self.foveated_view_config,
                          use_quad_views := false }) := by
    simp [initialize_foveated_rendering, hen, hq, hprobe, setup_foveated_views, hsys, hok, hn]
  rw [e]
  exact ⟨rfl, fun hr => ⟨rfl, hr⟩⟩

/-- C6 (witness).  The scenario object with quad views requested, not yet Ready, against a
runtime that reports 3 views. -/
theorem initialize_view_count_mismatch_result_witness :
    check_foveated_support (quad_runtime 3) (scenario_state live_base true) = true ∧
    (initialize_foveated_rendering oob_zero (quad_runtime 3)
      (scenario_state live_base true)).2.foveated_supported = true ∧
    (initialize_foveated_rendering oob_zero (quad_runtime 3)
      (scenario_state live_base true)).2.foveated_ready = false :=
  ⟨by decide,
    (initialize_view_count_mismatch_result oob_zero (quad_runtime 3) (scenario_state live_base true)
      rfl rfl (by decide) (by decide) (by decide)).2 rfl⟩

/-! ## Teardown -/

theorem check_foveated_support_congr (rt : XrRuntime) (a b : FoveatedOpenXR)
    (hb : a.toOpenXRBase = b.toOpenXRBase) :
    check_foveated_support rt a = check_foveated_support rt b := by
  have h1 : a.system = b.system := congrArg OpenXRBase.system hb
  have h2 : a.instance_ = b.instance_ := congrArg OpenXRBase.instance_ hb
  simp only [check_foveated_support, h1, h2]

theorem setup_foveated_views_no_quad_frame (oob : F32 → Nat) (rt : XrRuntime)
    (s : FoveatedOpenXR) (h : s.use_quad_views = false) :
    (setup_foveated_views oob rt s).2 =
      { s with toOpenXRBase := (setup_foveated_views oob rt s).2.toOpenXRBase } := by
  obtain ⟨sb, sr, ss, sq, sc, sv, svc, ssw, s1, s2, s3, s4, s5⟩ := s
  simp only at h
  subst h
  simp only [setup_foveated_views, resize_views]
  split_ifs <;> first | rfl | simp_all

theorem setup_foveated_views_congr_no_quad (oob : F32 → Nat) (rt : XrRuntime)
    (a b : FoveatedOpenXR) (hb : a.toOpenXRBase = b.toOpenXRBase)
    (ha : a.use_quad_views = false) (hbq : b.use_quad_views = false) :
    (setup_foveated_views oob rt a).1 = (setup_foveated_views oob rt b).1 ∧
    (setup_foveated_views oob rt a).2.toOpenXRBase =
      (setup_foveated_views oob rt b).2.toOpenXRBase := by
  have h1 : a.system = b.system := congrArg OpenXRBase.system hb
  have h2 : a.instance_ = b.instance_ := congrArg OpenXRBase.instance_ hb
  have h3 : a.view_config = b.view_config := congrArg OpenXRBase.view_config hb
  have h4 : a.view_configs = b.view_configs := congrArg OpenXRBase.view_configs hb
  have h5 : a.views = b.views := congrArg OpenXRBase.views hb
  have h6 : a.stage_views = b.stage_views := congrArg OpenXRBase.stage_views hb
  simp only [setup_foveated_views, ha, hbq, resize_views, h1, h2, h3, h4, h5, h6]
  split_ifs <;> simp_all

theorem initialize_foveated_rendering_no_quad (oob : F32 → Nat) (rt : XrRuntime)
    (s : FoveatedOpenXR) (h : s.use_quad_views = false) :
    initialize_foveated_rendering oob rt s =
      if s.foveated_config.enabled = false then (false, s)
      else if check_foveated_support rt s = false then
        (false, { s with foveated_supported := false })
      else if (setup_foveated_views oob rt { s with foveated_supported := true }).1 = false
      then (false, (setup_foveated_views oob rt { s with foveated_supported := true }).2)
      else (true, { (setup_foveated_views oob rt { s with foveated_supported := true }).2 with
                    foveated_ready := true }) := by
  simp [initialize_foveated_rendering, h]

theorem reset_observation_congr (a b : FoveatedOpenXR)
    (hb : a.toOpenXRBase = b.toOpenXRBase) (hr : a.foveated_ready = b.foveated_ready)
    (hs : a.foveated_supported = b.foveated_supported)
    (hq : a.use_quad_views = b.use_quad_views)
    (hv : a.foveated_views.high_res_views = b.foveated_views.high_res_views ∧
      a.foveated_views.low_res_views = b.foveated_views.low_res_views ∧
      a.foveated_views.high_res_configs = b.foveated_views.high_res_configs ∧
      a.foveated_views.low_res_configs = b.foveated_views.low_res_configs) :
    reset_observation a = reset_observation b := by
  have h3 : a.view_config = b.view_config := congrArg OpenXRBase.view_config hb
  have h4 : a.view_configs = b.view_configs := congrArg OpenXRBase.view_configs hb
  have h5 : a.views = b.views := congrArg OpenXRBase.views hb
  have h6 : a.stage_views = b.stage_views := congrArg OpenXRBase.stage_views hb
  simp only [reset_observation, hr, hs, hq, h3, h4, h5, h6, hv.1, hv.2.1, hv.2.2.1, hv.2.2.2]

theorem initialize_congr_no_quad (oob : F32 → Nat) (rt : XrRuntime) (a b : FoveatedOpenXR)
    (hb : a.toOpenXRBase = b.toOpenXRBase) (hc : a.foveated_config = b.foveated_config)
    (hs : a.foveated_supported = b.foveated_supported)
    (hr : a.foveated_ready = b.foveated_ready)
    (hv : a.foveated_views.high_res_views = b.foveated_views.high_res_views ∧
      a.foveated_views.low_res_views = b.foveated_views.low_res_views ∧
      a.foveated_views.high_res_configs = b.foveated_views.high_res_configs ∧
      a.foveated_views.low_res_configs = b.foveated_views.low_res_configs)
    (ha : a.use_quad_views = false) (hbq : b.use_quad_views = false) :
    (initialize_foveated_rendering oob rt a).1 = (initialize_foveated_rendering oob rt b).1 ∧
    reset_observation (initialize_foveated_rendering oob rt a).2 =
      reset_observation (initialize_foveated_rendering oob rt b).2 ∧
    view_layout (initialize_foveated_rendering oob rt a).2 = view_layout a ∧
    view_layout (initialize_foveated_rendering oob rt b).2 = view_layout b := by
  have hchk := check_foveated_support_congr rt a b hb
  have hset := setup_foveated_views_congr_no_quad oob rt
    { a with foveated_supported := true } { b with foveated_supported := true } hb ha hbq
  have fa := setup_foveated_views_no_quad_frame oob rt { a with foveated_supported := true } ha
  have fb := setup_foveated_views_no_quad_frame oob rt { b with foveated_supported := true } hbq
  have hen : b.foveated_config.enabled = a.foveated_config.enabled := by rw [hc]
  rw [initialize_foveated_rendering_no_quad oob rt a ha,
    initialize_foveated_rendering_no_quad oob rt b hbq, hen, ← hchk, ← hset.1]
  have hqq : a.use_quad_views = b.use_quad_views := ha.trans hbq.symm
  by_cases he : a.foveated_config.enabled = false
  · rw [if_pos he, if_pos he]
    exact ⟨rfl, reset_observation_congr a b hb hr hs hqq hv, rfl, rfl⟩
  · by_cases hk : check_foveated_support rt a = false
    · rw [if_neg he, if_neg he, if_pos hk, if_pos hk]
      exact ⟨rfl, reset_observation_congr _ _ hb hr rfl hqq hv, rfl, rfl⟩
    · by_cases ho : (setup_foveated_views oob rt { a with foveated_supported := true }).1
          = false
      · rw [if_neg he, if_neg he, if_neg hk, if_neg hk, if_pos ho, if_pos ho]
        refine ⟨rfl, ?_, ?_, ?_⟩
        · rw [fa, fb]
          exact reset_observation_congr _ _ hset.2 hr rfl hqq hv
        · rw [fa]; rfl
        · rw [fb]; rfl
      · rw [if_neg he, if_neg he, if_neg hk, if_neg hk, if_neg ho, if_neg ho]
        refine ⟨rfl, ?_, ?_, ?_⟩
        · rw [fa, fb]
          exact reset_observation_congr _ _ hset.2 rfl rfl hqq hv
        · rw [fa]; rfl
        · rw [fb]; rfl

/-- C8.  `destroy` is total; afterwards `foveated_ready`, `foveated_supported` and
`use_quad_views` are false, the four high/low-res sub-collections and the swapchain index
are empty, and the inherited members are those the base teardown returns when run once on
the object as the resets left it (all of the above already reset). -/
theorem destroy_resets_all (base : BasePipeline) (self : FoveatedOpenXR) :
    (destroy base self).foveated_ready = false ∧
    (destroy base self).foveated_supported = false ∧
    (destroy base self).use_quad_views = false ∧
    (destroy base self).foveated_views.high_res_views = [] ∧
    (destroy base self).foveated_views.low_res_views = [] ∧
    (destroy base self).foveated_views.high_res_configs = [] ∧
    (destroy base self).foveated_views.low_res_configs = [] ∧
    (destroy base self).foveated_swapchains = [] ∧
    (destroy base self).toOpenXRBase = base.destroy (destroy_resets self) ∧
    (destroy_resets self).toOpenXRBase = self.toOpenXRBase ∧
    (destroy_resets self).foveated_ready = false ∧
    (destroy_resets self).foveated_supported = false ∧
    (destroy_resets self).use_quad_views = false ∧
    (destroy_resets self).foveated_views.high_res_views = [] ∧
    (destroy_resets self).foveated_views.low_res_views = [] ∧
    (destroy_resets self).foveated_views.high_res_configs = [] ∧
    (destroy_resets self).foveated_views.low_res_configs = [] ∧
    (destroy_resets self).foveated_swapchains = [] :=
  ⟨rfl, rfl, rfl, rfl, rfl, rfl, rfl, rfl, rfl, rfl, rfl, rfl, rfl, rfl, rfl, rfl, rfl, rfl⟩

/-! ## View registry -/

theorem write_view_configuration_views_type (buf out : List XrViewConfigurationView)
    (t : XrStructureType) (h : ∀ b ∈ buf, b.type = t) :
    ∀ c ∈ write_view_configuration_views buf out, c.type = t := by
  induction buf generalizing out with
  | nil => simp [write_view_configuration_views]
  | cons b bs ih =>
    cases out with
    | nil => simpa [write_view_configuration_views] using h
    | cons o os =>
      intro c hc
      have hc2 : c = fill_view_configuration_view b o ∨
          c ∈ write_view_configuration_views bs os := by
        simpa [write_view_configuration_views] using hc
      rcases hc2 with rfl | hc2
      · exact h b (List.mem_cons_self _ _)
      · exact ih os (fun x hx => h x (List.mem_cons_of_mem _ hx)) c hc2

theorem resize_views_types (self : FoveatedOpenXR) (n : Nat) :
    (∀ c ∈ (resize_views self n).view_configs, c.type = XR_TYPE_VIEW_CONFIGURATION_VIEW) ∧
    (∀ v ∈ (resize_views self n).views, v.type = XR_TYPE_VIEW) ∧
    (∀ v ∈ (resize_views self n).stage_views, v.type = XR_TYPE_VIEW) := by
  refine ⟨?_, ?_, ?_⟩ <;>
  · intro c hc
    simp only [resize_views, List.mem_map] at hc
    obtain ⟨x, _, rfl⟩ := hc
    rfl

theorem setup_foveated_views_base_of_resized (oob : F32 → Nat) (rt : XrRuntime)
    (self : FoveatedOpenXR) (hsys : self.system ≠ XR_NULL_SYSTEM_ID)
    (hok : XR_FAILED (rt.xrEnumerateViewConfigurationViews self.instance_ self.system
      self.view_config 0).1 = false)
    (hq : self.use_quad_views = true →
      (rt.xrEnumerateViewConfigurationViews self.instance_ self.system
        self.view_config 0).2.1 = 4) :
    (setup_foveated_views oob rt self).2.toOpenXRBase =
      { (resize_views self (rt.xrEnumerateViewConfigurationViews self.instance_ self.system
          self.view_config 0).2.1).toOpenXRBase with
        view_configs := write_view_configuration_views
          (resize_views self (rt.xrEnumerateViewConfigurationViews self.instance_ self.system
            self.view_config 0).2.1).view_configs
          (rt.xrEnumerateViewConfigurationViews self.instance_ self.system self.view_config
            (rt.xrEnumerateViewConfigurationViews self.instance_ self.system
              self.view_config 0).2.1).2.2 } := by
  have hnot : ¬(self.use_quad_views = true ∧
      (rt.xrEnumerateViewConfigurationViews self.instance_ self.system
        self.view_config 0).2.1 ≠ 4) := fun h => h.2 (hq h.1)
  simp only [setup_foveated_views, if_neg hsys, hok, if_neg hnot, Bool.false_eq_true,
    if_false, resize_views_instance, resize_views_system, resize_views_view_config]
  split_ifs <;> first | rfl | rw [setup_quad_view_data_base]

/-- C9.  Whenever `setup_foveated_views` reaches the resize (non-null system, successful
count query with count `n`, and `n = 4` if quad views are requested), the three per-view
collections have length exactly `n` afterwards and every descriptor carries its type tag,
whether the fill call then succeeds or fails; the same holds right after the resize. -/
theorem setup_foveated_views_resizes_together (oob : F32 → Nat) (rt : XrRuntime)
    (self : FoveatedOpenXR) (hsys : self.system ≠ XR_NULL_SYSTEM_ID)
    (hok : XR_FAILED (rt.xrEnumerateViewConfigurationViews self.instance_ self.system
      self.view_config 0).1 = false)
    (hq : self.use_quad_views = true →
      (rt.xrEnumerateViewConfigurationViews self.instance_ self.system
        self.view_config 0).2.1 = 4) :
    ((setup_foveated_views oob rt self).2.view_configs.length =
        (rt.xrEnumerateViewConfigurationViews self.instance_ self.system
          self.view_config 0).2.1 ∧
      (setup_foveated_views oob rt self).2.views.length =
        (rt.xrEnumerateViewConfigurationViews self.instance_ self.system
          self.view_config 0).2.1 ∧
      (setup_foveated_views oob rt self).2.stage_views.length =
        (rt.xrEnumerateViewConfigurationViews self.instance_ self.system
          self.view_config 0).2.1) ∧
    ((∀ c ∈ (setup_foveated_views oob rt self).2.view_configs,
        c.type = XR_TYPE_VIEW_CONFIGURATION_VIEW) ∧
      (∀ v ∈ (setup_foveated_views oob rt self).2.views, v.type = XR_TYPE_VIEW) ∧
      (∀ v ∈ (setup_foveated_views oob rt self).2.stage_views, v.type = XR_TYPE_VIEW)) ∧
    ((resize_views self (rt.xrEnumerateViewConfigurationViews self.instance_ self.system
        self.view_config 0).2.1).view_configs.length =
        (rt.xrEnumerateViewConfigurationViews self.instance_ self.system
          self.view_config 0).2.1 ∧
      (resize_views self (rt.xrEnumerateViewConfigurationViews self.instance_ self.system
        self.view_config 0).2.1).views.length =
        (rt.xrEnumerateViewConfigurationViews self.instance_ self.system
          self.view_config 0).2.1 ∧
      (resize_views self (rt.xrEnumerateViewConfigurationViews self.instance_ self.system
        self.view_config 0).2.1).stage_views.length =
        (rt.xrEnumerateViewConfigurationViews self.instance_ self.system
          self.view_config 0).2.1) := by
  have hb := setup_foveated_views_base_of_resized oob rt self hsys hok hq
  have h1 := congrArg OpenXRBase.view_configs hb
  have h2 := congrArg OpenXRBase.views hb
  have h3 := congrArg OpenXRBase.stage_views hb
  have ht := resize_views_types self
    (rt.xrEnumerateViewConfigurationViews self.instance_ self.system self.view_config 0).2.1
  simp only at h1 h2 h3
  refine ⟨⟨?_, ?_, ?_⟩, ⟨?_, ?_, ?_⟩, ⟨?_, ?_, ?_⟩⟩
  · rw [h1, write_view_configuration_views_length, resize_views_view_configs_length]
  · rw [h2, resize_views_views_length]
  · rw [h3, resize_views_stage_views_length]
  · rw [h1]
    exact write_view_configuration_views_type _ _ _ ht.1
  · rw [h2]
    exact ht.2.1
  · rw [h3]
    exact ht.2.2
  · exact resize_views_view_configs_length _ _
  · exact resize_views_views_length _ _
  · exact resize_views_stage_views_length _ _

/-- C9 (witness).  The scenario object against a runtime that reports four views: all
three collections end with length 4. -/
theorem setup_foveated_views_resizes_together_witness :
    (scenario_state live_base true).system ≠ XR_NULL_SYSTEM_ID ∧
    (setup_foveated_views oob_zero (quad_runtime 4)
      (scenario_state live_base true)).2.view_configs.length = 4 ∧
    (setup_foveated_views oob_zero (quad_runtime 4)
      (scenario_state live_base true)).2.views.length = 4 ∧
    (setup_foveated_views oob_zero (quad_runtime 4)
      (scenario_state live_base true)).2.stage_views.length = 4 :=
  ⟨by decide,
    (setup_foveated_views_resizes_together oob_zero (quad_runtime 4)
      (scenario_state live_base true) (by decide) (by decide) (fun _ => rfl)).1⟩

/-! ## Frame-update overrides -/

/-- C10.  `update_matrices` and `update_render_target_size`: when the object is not both
Ready and in quad-view mode, each returns what the base operation returns for the same
arguments and only the inherited members change, to what the base operation left; when it
is Ready and in quad-view mode but the session is not ready, each returns SUCCESS and the
object is unchanged. -/
theorem frame_updates_gate (oob : F32 → Nat) (base : BasePipeline) (self : FoveatedOpenXR)
    (nearz farz : F32) :
    ((self.foveated_ready = false ∨ self.use_quad_views = false) →
      update_matrices base self nearz farz =
        ((base.update_matrices self nearz farz).1,
          { self with toOpenXRBase := (base.update_matrices self nearz farz).2 }) ∧
      update_render_target_size oob base self =
        ((base.update_render_target_size self).1,
          { self with toOpenXRBase := (base.update_render_target_size self).2 })) ∧
    ((self.foveated_ready = true ∧ self.use_quad_views = true ∧ self.session_ready = false) →
      update_matrices base self nearz farz = (Error.SUCCESS, self) ∧
      update_render_target_size oob base self = (Error.SUCCESS, self)) := by
  constructor
  · intro h
    simp only [update_matrices, update_render_target_size, if_pos h, and_self]
  · rintro ⟨hr, hq, hs⟩
    simp [update_matrices, update_render_target_size, hr, hq, hs]

/-- C10 (witness).  A fresh object passes through to a failing base pipeline; a Ready
quad-view object without a ready session returns SUCCESS unchanged. -/
theorem frame_updates_gate_witness :
    (update_matrices failing_base (FoveatedOpenXR.fresh live_base {}) ⟨0⟩ ⟨1065353216⟩ =
        (Error.FAILURE 7,
          { FoveatedOpenXR.fresh live_base {} with session_ready := false }) ∧
      update_render_target_size oob_zero failing_base (FoveatedOpenXR.fresh live_base {}) =
        (Error.FAILURE 7,
          { FoveatedOpenXR.fresh live_base {} with session_ready := false })) ∧
    (update_matrices failing_base ready_quad_no_session_state ⟨0⟩ ⟨1065353216⟩ =
        (Error.SUCCESS, ready_quad_no_session_state) ∧
      update_render_target_size oob_zero failing_base ready_quad_no_session_state =
        (Error.SUCCESS, ready_quad_no_session_state)) :=
  ⟨(frame_updates_gate oob_zero failing_base (FoveatedOpenXR.fresh live_base {}) ⟨0⟩
      ⟨1065353216⟩).1 (Or.inl rfl),
    (frame_updates_gate oob_zero failing_base ready_quad_no_session_state ⟨0⟩
      ⟨1065353216⟩).2 ⟨rfl, rfl, rfl⟩⟩

/-- C11.  When the object is Ready, in quad-view mode, the session is ready and the per-view
configuration collection is non-empty with first element `c`, `update_render_target_size`
returns SUCCESS and the resulting object is what the layout calculator yields for
`c.recommendedImageRectWidth`, `c.recommendedImageRectHeight` and the current settings: the
four stored dimensions are the casts of the single-precision products for that size and
those settings, and nothing else in the object changes. -/
theorem update_render_target_size_recomputes_layout (oob : F32 → Nat) (base : BasePipeline)
    (self : FoveatedOpenXR) (c : XrViewConfigurationView) (cs : List XrViewConfigurationView)
    (hr : self.foveated_ready = true) (hq : self.use_quad_views = true)
    (hs : self.session_ready = true) (hv : self.view_configs = c :: cs) :
    update_render_target_size oob base self =
      (Error.SUCCESS,
        calculate_foveated_viewports oob self c.recommendedImageRectWidth
          c.recommendedImageRectHeight) ∧
    view_layout (update_render_target_size oob base self).2 =
      (F32.toUInt32 oob (center_product c.recommendedImageRectWidth
          self.foveated_config.center_size_x self.foveated_config.center_resolution_scale),
        F32.toUInt32 oob (center_product c.recommendedImageRectHeight
          self.foveated_config.center_size_y self.foveated_config.center_resolution_scale),
        F32.toUInt32 oob (peripheral_product c.recommendedImageRectWidth
          self.foveated_config.peripheral_resolution_scale),
        F32.toUInt32 oob (peripheral_product c.recommendedImageRectHeight
          self.foveated_config.peripheral_resolution_scale)) ∧
    (update_render_target_size oob base self).2 =
      { self with
        foveated_views :=
          { self.foveated_views with
            high_res_width :=
              (update_render_target_size oob base self).2.foveated_views.high_res_width
            high_res_height :=
              (update_render_target_size oob base self).2.foveated_views.high_res_height
            low_res_width :=
              (update_render_target_size oob base self).2.foveated_views.low_res_width
            low_res_height :=
              (update_render_target_size oob base self).2.foveated_views.low_res_height } } := by
  have e : update_render_target_size oob base self =
      (Error.SUCCESS,
        calculate_foveated_viewports oob self c.recommendedImageRectWidth
          c.recommendedImageRectHeight) := by
    simp [update_render_target_size, hr, hq, hs, hv]
  rw [e]
  refine ⟨rfl, ?_, ?_⟩
  · simp [view_layout, calculate_foveated_viewports, hq, center_product, peripheral_product]
  · simp [calculate_foveated_viewports, hq]

/-- C11 (witness).  After the first view's recommended size changed to 4000 x 2000 the next
call stores the layout 2000 x 1000 / 1000 x 500. -/
theorem update_render_target_size_recomputes_layout_witness :
    resized_quad_state.foveated_ready = true ∧ resized_quad_state.use_quad_views = true ∧
    (update_render_target_size oob_zero idle_base resized_quad_state).1 = Error.SUCCESS ∧
    view_layout (update_render_target_size oob_zero idle_base resized_quad_state).2 =
      (2000, 1000, 1000, 500) :=
  ⟨by decide, by decide,
    congrArg Prod.fst (update_render_target_size_recomputes_layout oob_zero idle_base
      resized_quad_state _ _ (by decide) (by decide) (by decide) rfl).1,
    ((update_render_target_size_recomputes_layout oob_zero idle_base resized_quad_state _ _
      (by decide) (by decide) (by decide) rfl).2.1).trans (by decide)⟩

/-! ## Capability probe -/

/-- C12.  `check_foveated_support` returns true exactly when the system id is non-null, the
count call and the fill call of the view-configuration-type enumeration both succeed, and
the enumerated list contains the quad-view type; in every other case, a failed enumeration
included, it returns false.  The operation only yields a Boolean: it has no access to write
the object. -/
theorem check_foveated_support_true_iff (rt : XrRuntime) (self : FoveatedOpenXR) :
    check_foveated_support rt self = true ↔
      self.system ≠ XR_NULL_SYSTEM_ID ∧
      XR_FAILED (rt.xrEnumerateViewConfigurations self.instance_ self.system 0).1 = false ∧
      XR_FAILED (rt.xrEnumerateViewConfigurations self.instance_ self.system
        (rt.xrEnumerateViewConfigurations self.instance_ self.system 0).2.1).1 = false ∧
      XR_VIEW_CONFIGURATION_TYPE_PRIMARY_STEREO_WITH_FOVEATED_INSET ∈
        write_buffer
          (List.replicate (rt.xrEnumerateViewConfigurations self.instance_ self.system 0).2.1
            0)
          (rt.xrEnumerateViewConfigurations self.instance_ self.system
            (rt.xrEnumerateViewConfigurations self.instance_ self.system 0).2.1).2.2 := by
  have h := check_foveated_support_eq_false_iff rt self
  rw [← Bool.not_eq_false, h, no_quad_view_support]
  simp only [not_or, Bool.not_eq_true, not_not, ne_eq]

theorem check_extensions_eq (rt : XrRuntime) (self : FoveatedOpenXR) :
    check_extensions rt self =
      ((((enumerated_extensions rt).foldl check_extension self).has_varjo_foveated ||
          ((enumerated_extensions rt).foldl check_extension self).has_fb_foveation ||
          ((enumerated_extensions rt).foldl check_extension self).has_meta_eye_tracked),
        (enumerated_extensions rt).foldl check_extension self) := by
  simp only [check_extensions, enumerated_extensions]
  split_ifs <;> rfl

theorem mem_set_insert (s : List String) (a b : String) :
    b ∈ set_insert s a ↔ b = a ∨ b ∈ s := by
  unfold set_insert
  split_ifs with h
  · constructor
    · exact fun hb => Or.inr hb
    · rintro (rfl | hb)
      · exact h
      · exact hb
  · simp

theorem check_extension_flags (s : FoveatedOpenXR) (e : String) :
    (check_extension s e).has_varjo_foveated =
      (s.has_varjo_foveated || decide (e = "XR_VARJO_foveated_rendering")) ∧
    (check_extension s e).has_fb_foveation =
      (s.has_fb_foveation || decide (e = "XR_FB_foveation")) ∧
    (check_extension s e).has_meta_eye_tracked =
      (s.has_meta_eye_tracked || decide (e = "XR_META_foveation_eye_tracked")) := by
  simp only [check_extension]
  split_ifs <;> simp_all

theorem check_extension_mem (s : FoveatedOpenXR) (e name : String) :
    name ∈ (check_extension s e).enabled_extensions ↔
      name ∈ s.enabled_extensions ∨ (name ∈ recognized_extensions ∧ name = e) := by
  simp only [check_extension, recognized_extensions]
  split_ifs <;> simp_all [mem_set_insert] <;>
    first | tauto | (rintro (h | h | h) rfl <;> simp_all)

theorem check_extension_frame (s : FoveatedOpenXR) (e : String) :
    check_extension s e =
      { s with
        has_varjo_foveated := (check_extension s e).has_varjo_foveated
        has_fb_foveation := (check_extension s e).has_fb_foveation
        has_meta_eye_tracked := (check_extension s e).has_meta_eye_tracked
        enabled_extensions := (check_extension s e).enabled_extensions } := by
  simp only [check_extension]
  split_ifs <;> rfl

theorem foldl_check_extension (l : List String) (s : FoveatedOpenXR) :
    ((l.foldl check_extension s).has_varjo_foveated =
        (s.has_varjo_foveated || decide ("XR_VARJO_foveated_rendering" ∈ l)) ∧
      (l.foldl check_extension s).has_fb_foveation =
        (s.has_fb_foveation || decide ("XR_FB_foveation" ∈ l)) ∧
      (l.foldl check_extension s).has_meta_eye_tracked =
        (s.has_meta_eye_tracked || decide ("XR_META_foveation_eye_tracked" ∈ l))) ∧
    (∀ name, name ∈ (l.foldl check_extension s).enabled_extensions ↔
      name ∈ s.enabled_extensions ∨ (name ∈ recognized_extensions ∧ name ∈ l)) ∧
    l.foldl check_extension s =
      { s with
        has_varjo_foveated := (l.foldl check_extension s).has_varjo_foveated
        has_fb_foveation := (l.foldl check_extension s).has_fb_foveation
        has_meta_eye_tracked := (l.foldl check_extension s).has_meta_eye_tracked
        enabled_extensions := (l.foldl check_extension s).enabled_extensions } := by
  induction l generalizing s with
  | nil => simp
  | cons e es ih =>
    obtain ⟨⟨i1, i2, i3⟩, i4, i5⟩ := ih (check_extension s e)
    obtain ⟨f1, f2, f3⟩ := check_extension_flags s e
    have fr := check_extension_frame s e
    simp only [List.foldl_cons]
    refine ⟨⟨?_, ?_, ?_⟩, ?_, ?_⟩
    · rw [i1, f1]
      cases s.has_varjo_foveated <;> simp [eq_comm]
    · rw [i2, f2]
      cases s.has_fb_foveation <;> simp [eq_comm]
    · rw [i3, f3]
      cases s.has_meta_eye_tracked <;> simp [eq_comm]
    · intro name
      rw [i4, check_extension_mem]
      simp only [List.mem_cons]
      tauto
    · rw [i5]
      rw [fr]

/-- C13 (counterexample).  An object that was probed once against a runtime advertising
the Varjo extension, probed again against a runtime that advertises only `XR_FB_foveation`:
`has_varjo_foveated` is still true although its identifier is not in the list, and the
recorded set still holds it. -/
theorem check_extensions_keeps_stale_flag :
    "XR_VARJO_foveated_rendering" ∉ enumerated_extensions (extension_runtime ["XR_FB_foveation"]) ∧
    (check_extensions (extension_runtime ["XR_FB_foveation"])
      varjo_probed_state).2.has_varjo_foveated = true ∧
    "XR_VARJO_foveated_rendering" ∈ (check_extensions (extension_runtime ["XR_FB_foveation"])
      varjo_probed_state).2.enabled_extensions ∧
    (check_extensions (extension_runtime []) varjo_probed_state).1 = true ∧
    (∀ name ∈ recognized_extensions, name ∉ enumerated_extensions (extension_runtime [])) := by
  decide

/-- C13 (amended).  For every extension list the runtime writes and every prior state,
after `check_extensions` each of the three availability flags is true exactly when it was
true before the call or its identifier occurs in the list (exact string equality); the
recorded extension set gains exactly the recognized identifiers that occur in the list; the
return value is the disjunction of the three flags afterwards; nothing else in the object
changes.  Hence on an object whose three flags are false before the call (as constructed)
each flag is true exactly when its identifier is in the list, and the return value is true
exactly when at least one of the three is in the list. -/
theorem check_extensions_accumulates (rt : XrRuntime) (self : FoveatedOpenXR) :
    ((check_extensions rt self).2.has_varjo_foveated =
        (self.has_varjo_foveated ||
          decide ("XR_VARJO_foveated_rendering" ∈ enumerated_extensions rt)) ∧
      (check_extensions rt self).2.has_fb_foveation =
        (self.has_fb_foveation || decide ("XR_FB_foveation" ∈ enumerated_extensions rt)) ∧
      (check_extensions rt self).2.has_meta_eye_tracked =
        (self.has_meta_eye_tracked ||
          decide ("XR_META_foveation_eye_tracked" ∈ enumerated_extensions rt))) ∧
    (∀ name, name ∈ (check_extensions rt self).2.enabled_extensions ↔
      name ∈ self.enabled_extensions ∨
        (name ∈ recognized_extensions ∧ name ∈ enumerated_extensions rt)) ∧
    (check_extensions rt self).1 =
      ((check_extensions rt self).2.has_varjo_foveated ||
        (check_extensions rt self).2.has_fb_foveation ||
        (check_extensions rt self).2.has_meta_eye_tracked) ∧
    (check_extensions rt self).2 =
      { self with
        has_varjo_foveated := (check_extensions rt self).2.has_varjo_foveated
        has_fb_foveation := (check_extensions rt self).2.has_fb_foveation
        has_meta_eye_tracked := (check_extensions rt self).2.has_meta_eye_tracked
        enabled_extensions := (check_extensions rt self).2.enabled_extensions } ∧
    (self.has_varjo_foveated = false ∧ self.has_fb_foveation = false ∧
        self.has_meta_eye_tracked = false →
      ((check_extensions rt self).2.has_varjo_foveated = true ↔
        "XR_VARJO_foveated_rendering" ∈ enumerated_extensions rt) ∧
      ((check_extensions rt self).2.has_fb_foveation = true ↔
        "XR_FB_foveation" ∈ enumerated_extensions rt) ∧
      ((check_extensions rt self).2.has_meta_eye_tracked = true ↔
        "XR_META_foveation_eye_tracked" ∈ enumerated_extensions rt) ∧
      ((check_extensions rt self).1 = true ↔
        ∃ name ∈ recognized_extensions, name ∈ enumerated_extensions rt)) := by
  obtain ⟨⟨f1, f2, f3⟩, f4, f5⟩ := foldl_check_extension (enumerated_extensions rt) self
  rw [check_extensions_eq]
  refine ⟨⟨f1, f2, f3⟩, f4, rfl, f5, ?_⟩
  rintro ⟨h1, h2, h3⟩
  simp only [f1, f2, f3, h1, h2, h3, Bool.false_or, decide_eq_true_eq, Bool.or_eq_true,
    recognized_extensions, List.mem_cons, List.mem_singleton, exists_eq_or_imp,
    exists_eq_left, List.mem_nil_iff, false_and, exists_false, or_false]
  tauto

/-- C13 (witness).  A fresh object against a runtime that advertises the Meta extension
among others: only that flag is set and the call returns true. -/
theorem check_extensions_accumulates_witness :
    ((check_extensions (extension_runtime ["XR_KHR_D3D11_enable",
        "XR_META_foveation_eye_tracked"])
      (FoveatedOpenXR.fresh live_base {})).2.has_varjo_foveated = true ↔
      "XR_VARJO_foveated_rendering" ∈ enumerated_extensions (extension_runtime
        ["XR_KHR_D3D11_enable", "XR_META_foveation_eye_tracked"])) ∧
    ((check_extensions (extension_runtime ["XR_KHR_D3D11_enable",
        "XR_META_foveation_eye_tracked"])
      (FoveatedOpenXR.fresh live_base {})).1 = true ↔
      ∃ name ∈ recognized_extensions, name ∈ enumerated_extensions (extension_runtime
        ["XR_KHR_D3D11_enable", "XR_META_foveation_eye_tracked"])) :=
  ⟨((check_extensions_accumulates (extension_runtime ["XR_KHR_D3D11_enable",
      "XR_META_foveation_eye_tracked"]) (FoveatedOpenXR.fresh live_base {})).2.2.2.2
      ⟨rfl, rfl, rfl⟩).1,
    ((check_extensions_accumulates (extension_runtime ["XR_KHR_D3D11_enable",
      "XR_META_foveation_eye_tracked"]) (FoveatedOpenXR.fresh live_base {})).2.2.2.2
      ⟨rfl, rfl, rfl⟩).2.2.2⟩

/-! ## Configuration model -/

theorem on_config_save_entries (options : ModOptions) (self : FoveatedOpenXR) (cfg : Config)
    (hframe : ∀ (b : OpenXRBase) (c : Config) (key : String), key ∈ foveated_keys →
      (options.config_save b c).entries key = c.entries key) :
    (on_config_save options self cfg).entries "OpenXR_Foveated_Enabled" =
      some (ConfigValue.bool self.foveated_config.enabled) ∧
    (on_config_save options self cfg).entries "OpenXR_Foveated_CenterScale" =
      some (ConfigValue.float self.foveated_config.center_resolution_scale) ∧
    (on_config_save options self cfg).entries "OpenXR_Foveated_PeripheralScale" =
      some (ConfigValue.float self.foveated_config.peripheral_resolution_scale) ∧
    (on_config_save options self cfg).entries "OpenXR_Foveated_CenterSizeX" =
      some (ConfigValue.float self.foveated_config.center_size_x) ∧
    (on_config_save options self cfg).entries "OpenXR_Foveated_CenterSizeY" =
      some (ConfigValue.float self.foveated_config.center_size_y) ∧
    (on_config_save options self cfg).entries "OpenXR_Foveated_EyeTracking" =
      some (ConfigValue.bool self.foveated_config.use_eye_tracking) := by
  simp only [on_config_save]
  refine ⟨?_, ?_, ?_, ?_, ?_, ?_⟩ <;>
  · rw [hframe _ _ _ (by simp [foveated_keys])]
    simp [Config.set_bool, Config.set_float, Config.set]

/-- C14.  Settings round trip through the store (a key-value map with get-or-set
semantics), the options of the base pipeline leaving the six foveation keys alone: for
every value of the six settings fields, `on_config_save` followed by `on_config_load` with
`set_defaults = false` gives back exactly the six saved values, whatever object loads them;
and `on_config_load` with `set_defaults = true` on a store that lacks the six keys yields
enabled = false, centre scale `1.0f`, peripheral scale `0.25f`, centre sizes `0.5f` and eye
tracking = false. -/
theorem config_round_trip (options : ModOptions) (self loader : FoveatedOpenXR) (cfg : Config)
    (hframe : ∀ (b : OpenXRBase) (c : Config) (key : String), key ∈ foveated_keys →
      (options.config_save b c).entries key = c.entries key) :
    (on_config_load options (on_config_save options self cfg) false loader).2.foveated_config
      = self.foveated_config ∧
    (∀ cfg0 : Config, (∀ key ∈ foveated_keys, cfg0.entries key = none) →
      (on_config_load options cfg0 true loader).2.foveated_config =
        { enabled := false, center_resolution_scale := ⟨1065353216⟩,
          peripheral_resolution_scale := ⟨1048576000⟩, center_size_x := ⟨1056964608⟩,
          center_size_y := ⟨1056964608⟩, use_eye_tracking := false }) ∧
    (F32.toRat ⟨1065353216⟩ = 1 ∧ F32.toRat ⟨1048576000⟩ = 1 / 4 ∧
      F32.toRat ⟨1056964608⟩ = 1 / 2) := by
  obtain ⟨e1, e2, e3, e4, e5, e6⟩ := on_config_save_entries options self cfg hframe
  refine ⟨?_, ?_, ?_⟩
  · simp [on_config_load, Config.get_or_set_bool, Config.get_or_set_float, e1, e2, e3, e4,
      e5, e6]
  · intro cfg0 h0
    have k1 := h0 "OpenXR_Foveated_Enabled" (by simp [foveated_keys])
    have k2 := h0 "OpenXR_Foveated_CenterScale" (by simp [foveated_keys])
    have k3 := h0 "OpenXR_Foveated_PeripheralScale" (by simp [foveated_keys])
    have k4 := h0 "OpenXR_Foveated_CenterSizeX" (by simp [foveated_keys])
    have k5 := h0 "OpenXR_Foveated_CenterSizeY" (by simp [foveated_keys])
    have k6 := h0 "OpenXR_Foveated_EyeTracking" (by simp [foveated_keys])
    simp [on_config_load, Config.get_or_set_bool, Config.get_or_set_float, Config.set_bool,
      Config.set_float, Config.set, k1, k2, k3, k4, k5, k6]
  · norm_num [F32.toRat, F32.expField, F32.sign, F32.significand, F32.fracField,
      F32.exponent]

/-- C14 (witness).  Out-of-range settings (negative scale, NaN, size 3.0) survive the round
trip through an empty store with the sample options. -/
theorem config_round_trip_witness :
    (on_config_load sample_options
      (on_config_save sample_options (FoveatedOpenXR.fresh live_base odd_config) empty_config)
      false (FoveatedOpenXR.fresh live_base {})).2.foveated_config = odd_config :=
  (config_round_trip sample_options (FoveatedOpenXR.fresh live_base odd_config)
    (FoveatedOpenXR.fresh live_base {}) empty_config
    (by
      intro b c key hk
      simp only [sample_options, Config.set_bool, Config.set]
      have : key ≠ "OpenXR_IgnoreVirtualDesktopChecks" := by
        intro h
        rw [h] at hk
        simp [foveated_keys] at hk
      simp [this])).1

/-! ## Layout calculator as a function of its inputs -/

/-- C15 (counterexample).  Two objects with the same settings, one with quad-view mode
active and one without, both holding the layout 0 x 0 / 0 x 0: after
`calculate_foveated_viewports` with base size 2000 x 2000 the first holds
1000 x 1000 / 500 x 500 and the second still 0 x 0 / 0 x 0. -/
theorem calculate_foveated_viewports_depends_on_flag :
    (scenario_state live_base true).foveated_config =
      (scenario_state live_base false).foveated_config ∧
    view_layout (calculate_foveated_viewports oob_zero (scenario_state live_base true)
      2000 2000) = (1000, 1000, 500, 500) ∧
    view_layout (calculate_foveated_viewports oob_zero (scenario_state live_base false)
      2000 2000) = (0, 0, 0, 0) := by
  decide

/-- C15 (amended).  For any two objects that agree on the settings and both have quad-view
mode active, `calculate_foveated_viewports` with the same base width and height leaves the
same four ViewLayout dimensions in both, whatever their other fields (readiness flags,
previously stored layout, collections) are; on an object without quad-view mode the call
changes nothing, so the stored layout stays what it was. -/
theorem calculate_foveated_viewports_deterministic (oob : F32 → Nat) (a b : FoveatedOpenXR)
    (base_width base_height : Nat) (hc : a.foveated_config = b.foveated_config) :
    (a.use_quad_views = true → b.use_quad_views = true →
      view_layout (calculate_foveated_viewports oob a base_width base_height) =
        view_layout (calculate_foveated_viewports oob b base_width base_height)) ∧
    (a.use_quad_views = false →
      calculate_foveated_viewports oob a base_width base_height = a) := by
  constructor
  · intro ha hb
    simp [view_layout, calculate_foveated_viewports, ha, hb, hc]
  · intro ha
    simp [calculate_foveated_viewports, ha]

/-- C15 (witness).  The Ready quad-view object and a quad-view object without any stored
layout, same settings: same layout after the call; the fresh object is left unchanged. -/
theorem calculate_foveated_viewports_deterministic_witness :
    view_layout (calculate_foveated_viewports oob_zero ready_quad_state 3000 1000) =
      view_layout (calculate_foveated_viewports oob_zero (scenario_state live_base true)
        3000 1000) ∧
    calculate_foveated_viewports oob_zero (scenario_state live_base false) 3000 1000 =
      scenario_state live_base false :=
  ⟨(calculate_foveated_viewports_deterministic oob_zero ready_quad_state
      (scenario_state live_base true) 3000 1000 (by decide)).1 (by decide) rfl,
    (calculate_foveated_viewports_deterministic oob_zero (scenario_state live_base false)
      (scenario_state live_base false) 3000 1000 rfl).2 rfl⟩

/-! ## Reachable states -/

theorem setup_quad_view_data_checked_eq (oob : F32 → Nat) (s : FoveatedOpenXR)
    (h : 0 < s.view_configs.length) :
    setup_quad_view_data_checked oob s = some (setup_quad_view_data oob s) := by
  obtain ⟨c, cs, hc⟩ : ∃ c cs, s.view_configs = c :: cs := by
    cases hv : s.view_configs with
    | nil => simp [hv] at h
    | cons c cs => exact ⟨c, cs, rfl⟩
  simp [setup_quad_view_data_checked, setup_quad_view_data, hc]

theorem setup_foveated_views_checked_eq (oob : F32 → Nat) (rt : XrRuntime)
    (self : FoveatedOpenXR) :
    setup_foveated_views_checked oob rt self = some (setup_foveated_views oob rt self) := by
  simp only [setup_foveated_views_checked, setup_foveated_views]
  split_ifs with h1 h2 h3 h4 h5
  · rfl
  · rfl
  · rfl
  · rfl
  · have hq : self.use_quad_views = true := h5
    have hn : (rt.xrEnumerateViewConfigurationViews self.instance_ self.system
        self.view_config 0).2.1 = 4 := by
      by_contra hne
      exact h3 ⟨hq, hne⟩
    rw [setup_quad_view_data_checked_eq]
    · rfl
    · show 0 < (write_view_configuration_views _ _).length
      rw [write_view_configuration_views_length, resize_views_view_configs_length, hn]
      norm_num
  · rfl

theorem update_render_target_size_checked_eq (oob : F32 → Nat) (base : BasePipeline)
    (self : FoveatedOpenXR) :
    update_render_target_size_checked oob base self =
      some (update_render_target_size oob base self) := by
  simp only [update_render_target_size_checked, update_render_target_size]
  split_ifs with h1 h2
  · rfl
  · rfl
  · cases hv : self.view_configs with
    | nil => simp [hv] at h2
    | cons c cs => simp

/-- C17.  Every read of `view_configs[0]` is in bounds: for every state and every runtime
answer, `setup_foveated_views` and `update_render_target_size` with the read checked never
hit an empty collection and return what the unchecked operations return.  In
`setup_foveated_views` the read occurs only on the successful quad-view path, where the
collection has exactly 4 elements. -/
theorem first_view_config_reads_in_bounds (oob : F32 → Nat) (rt : XrRuntime)
    (base : BasePipeline) (self : FoveatedOpenXR) :
    setup_foveated_views_checked oob rt self = some (setup_foveated_views oob rt self) ∧
    update_render_target_size_checked oob base self =
      some (update_render_target_size oob base self) ∧
    ((setup_foveated_views oob rt self).1 = true → self.use_quad_views = true →
      (setup_foveated_views oob rt self).2.view_configs.length = 4) := by
  refine ⟨setup_foveated_views_checked_eq oob rt self,
    update_render_target_size_checked_eq oob base self, ?_⟩
  intro hok hq
  obtain ⟨hsys, hc, hn, _⟩ := (setup_foveated_views_success_iff oob rt self).1 hok
  have hb := setup_foveated_views_base_of_resized oob rt self hsys hc hn
  have h1 := congrArg OpenXRBase.view_configs hb
  simp only at h1
  rw [h1, write_view_configuration_views_length, resize_views_view_configs_length, hn hq]

/-- C17 (witness).  The scenario object with quad views requested against the four-view
runtime: the checked setup returns a result and the collection read has 4 elements. -/
theorem first_view_config_reads_in_bounds_witness :
    (setup_foveated_views_checked oob_zero (quad_runtime 4)
      (scenario_state live_base true)).isSome = true ∧
    (setup_foveated_views oob_zero (quad_runtime 4)
      (scenario_state live_base true)).2.view_configs.length = 4 :=
  ⟨by
      rw [(first_view_config_reads_in_bounds oob_zero (quad_runtime 4) idle_base
        (scenario_state live_base true)).1]
      rfl,
    (first_view_config_reads_in_bounds oob_zero (quad_runtime 4) idle_base
      (scenario_state live_base true)).2.2 (by decide) rfl⟩

/-! ## Return value of the initialization -/

/-- C18.  The return value of `initialize_foveated_rendering` characterises its effect on
readiness, for every prior state, settings and runtime answers: if it returns true then
afterwards `foveated_ready` and `foveated_supported` are true and the three per-view
collections have the length the runtime reported for the view configuration in use; if it
returns false then `foveated_ready` has the value it had before the call. -/
theorem initialize_result_characterises_readiness (oob : F32 → Nat) (rt : XrRuntime)
    (self : FoveatedOpenXR) :
    ((initialize_foveated_rendering oob rt self).1 = true →
      (initialize_foveated_rendering oob rt self).2.foveated_ready = true ∧
      (initialize_foveated_rendering oob rt self).2.foveated_supported = true ∧
      (initialize_foveated_rendering oob rt self).2.view_configs.length =
        (rt.xrEnumerateViewConfigurationViews self.instance_ self.system
          (negotiated_view_config self) 0).2.1 ∧
      (initialize_foveated_rendering oob rt self).2.views.length =
        (rt.xrEnumerateViewConfigurationViews self.instance_ self.system
          (negotiated_view_config self) 0).2.1 ∧
      (initialize_foveated_rendering oob rt self).2.stage_views.length =
        (rt.xrEnumerateViewConfigurationViews self.instance_ self.system
          (negotiated_view_config self) 0).2.1) ∧
    ((initialize_foveated_rendering oob rt self).1 = false →
      (initialize_foveated_rendering oob rt self).2.foveated_ready = self.foveated_ready) := by
  constructor
  · intro h
    have hready := initialize_foveated_rendering_foveated_ready oob rt self
    rw [h, Bool.true_or] at hready
    obtain ⟨hen, hchk, hset⟩ := (initialize_foveated_rendering_success_iff oob rt self).1 h
    obtain ⟨hsys, hok, hq, _⟩ := (setup_foveated_views_success_iff oob rt _).1 hset
    have hb := setup_foveated_views_base_of_resized oob rt _ hsys hok hq
    have hsup := setup_foveated_views_foveated_supported oob rt
      { self with foveated_supported := true, view_config := negotiated_view_config self }
    have e : initialize_foveated_rendering oob rt self =
        (true, { (setup_foveated_views oob rt
          { self with foveated_supported := true,
                      view_config := negotiated_view_config self }).2 with
          foveated_ready := true }) := by
      have hset2 := hset
      simp only [initialize_foveated_rendering, negotiated_view_config] at hset2 ⊢
      cases hqv : self.use_quad_views <;> simp_all
    have h1 := congrArg OpenXRBase.view_configs hb
    have h2 := congrArg OpenXRBase.views hb
    have h3 := congrArg OpenXRBase.stage_views hb
    simp only at h1 h2 h3
    rw [e]
    refine ⟨rfl, hsup, ?_, ?_, ?_⟩
    · show (setup_foveated_views oob rt _).2.view_configs.length = _
      rw [h1, write_view_configuration_views_length, resize_views_view_configs_length]
    · show (setup_foveated_views oob rt _).2.views.length = _
      rw [h2, resize_views_views_length]
    · show (setup_foveated_views oob rt _).2.stage_views.length = _
      rw [h3, resize_views_stage_views_length]
  · intro h
    rw [initialize_foveated_rendering_foveated_ready, h, Bool.false_or]

/-- C18 (witness).  A successful call on the fresh scenario object (four views) and a
failing call on the Ready object against a stereo-only runtime. -/
theorem initialize_result_characterises_readiness_witness :
    ((initialize_foveated_rendering oob_zero (quad_runtime 4)
        (scenario_state live_base false)).2.foveated_ready = true ∧
      (initialize_foveated_rendering oob_zero (quad_runtime 4)
        (scenario_state live_base false)).2.foveated_supported = true ∧
      (initialize_foveated_rendering oob_zero (quad_runtime 4)
        (scenario_state live_base false)).2.view_configs.length = 4) ∧
    (initialize_foveated_rendering oob_zero stereo_runtime ready_state).2.foveated_ready =
      ready_state.foveated_ready :=
  ⟨⟨((initialize_result_characterises_readiness oob_zero (quad_runtime 4)
        (scenario_state live_base false)).1 (by decide)).1,
      ((initialize_result_characterises_readiness oob_zero (quad_runtime 4)
        (scenario_state live_base false)).1 (by decide)).2.1,
      ((initialize_result_characterises_readiness oob_zero (quad_runtime 4)
        (scenario_state live_base false)).1 (by decide)).2.2.1⟩,
    (initialize_result_characterises_readiness oob_zero stereo_runtime ready_state).2
      (by decide)⟩

/-! ## Teardown followed by initialization -/

end runtimes
